import Mathlib

/-!
Verification development for the Number Crunch simulation core
(`src/app/projects/number-crunch/number-crunch.ts`).

The TypeScript component is embedded shallowly: the mutable component fields
become a Lean structure `NC`, every gameplay method becomes a pure function
`NC → ... → NC`, and the browser's event/tick loop becomes an explicit
reachability relation.  JavaScript numbers are modelled as `ℤ`/`ℚ` with
`Math.floor`/`Math.round` made explicit.  Randomness (`Math.random`) is
modelled by explicit choice parameters, constrained exactly as the source
constrains the drawn values.  Audio playback, canvas drawing, Angular change
detection and the asynchronous leaderboard service are presentation-layer /
external effects with no influence on the simulation fields; the only
observable trace of the leaderboard path inside the tick is that
`handleGameOverLeaderboard()` is invoked, which we record in a flag.
-/

namespace NumberCrunch

/-- JavaScript `Math.floor` on our rational model of JS numbers. -/
def jsFloor (q : ℚ) : ℤ := ⌊q⌋

/-- JavaScript `Math.round` (round half toward positive infinity). -/
def jsRound (q : ℚ) : ℤ := ⌊q + 1/2⌋

/-- The `GameState` enum of the component. -/
inductive GState where
  | loading
  | menu
  | playing
  | options
  | gameOver
  | chooseUpgrade
  | leaderboard
  | leaderboardNameInput
deriving DecidableEq

/-- The `difficulty` field of `GameSettings`. -/
inductive Difficulty where
  | easy
  | normal
  | hard
deriving DecidableEq

/-- The `GameSettings` record (volumes are kept for faithfulness; they feed
only audio output). -/
structure Settings where
  bgmVolume : ℚ
  sfxVolume : ℚ
  difficulty : Difficulty
  muted : Bool
deriving DecidableEq

/-- The `GameCell` interface. -/
structure GameCell where
  value : ℕ
  selected : Bool
  x : ℕ
  y : ℕ
deriving DecidableEq

/-- The `type` field of a `DamageText`. -/
inductive DmgKind where
  | enemy
  | player
deriving DecidableEq

/-- The `DamageText` interface. -/
structure DamageText where
  x : ℚ
  y : ℚ
  value : ℤ
  lifetime : ℚ
  maxLifetime : ℚ
  kind : DmgKind
deriving DecidableEq

/-- One entry of `scrambleAnimation` (old pixel position, new pixel position,
value), as produced by `scrambleBoard`. -/
structure ScrambleAnim where
  oldX : ℚ
  oldY : ℚ
  newX : ℚ
  newY : ℚ
  value : ℕ
deriving DecidableEq

/-- The named asset groups registered in `loadAllAssets`. -/
inductive AssetKey where
  | playerSprite
  | attackSprites
  | enemySprite
  | enemyAttackSprite
  | runningSprite
  | avatarSprites
  | soundEffects
  | bgm
deriving DecidableEq

/-! ## Game constants (from the component's `readonly` fields) -/

def GRID_SIZE : ℕ := 10
def CELL_SIZE : ℚ := 40
def CANVAS_SIZE : ℚ := 400
def MAX_HEALTH : ℤ := 120
def ENEMY_MAX_HEALTH : ℤ := 450
def EASY_HEALTH : ℤ := 150
def HARD_HEALTH : ℤ := 75
def EASY_DAMAGE_BASE : ℤ := 8
def NORMAL_DAMAGE_BASE : ℤ := 10
def HARD_DAMAGE_BASE : ℤ := 12
def ENEMY_ATTACK_DAMAGE : ℤ := 8
def ENEMY_ATTACK_INTERVAL : ℚ := 8000
def HEALTH_UPGRADE_BONUS : ℤ := 5
def DAMAGE_UPGRADE_BONUS : ℚ := 1/2
def SCRAMBLES_PER_LEVEL : ℕ := 3
def SCRAMBLE_ANIMATION_DURATION : ℚ := 2000
def POINTS_PER_TILE : ℕ := 10
def TARGET_BASE : ℕ := 9
def TARGET_RANDOM_MIN : ℕ := 0

/-- The component's mutable simulation state (one field per TypeScript field
that takes part in the simulation; audio elements, drawing handles and the
asynchronous leaderboard cache are external collaborators and are omitted,
except for the `loadedAssets` flags that gameplay logic consults and a flag
recording that `handleGameOverLeaderboard()` was invoked). -/
structure NC where
  currentState : GState
  settings : Settings
  grid : List (List GameCell)
  targetNumber : ℕ
  score : ℤ
  lastHealthBonus : ℤ
  lastScrambleBonus : ℤ
  level : ℕ
  playerHealth : ℤ
  enemyHealth : ℤ
  nextTarget : ℕ
  enemyAttackTimer : ℚ
  damageMultiplier : ℚ
  healthMultiplier : ℚ
  damageUpgradeCount : ℕ
  healthUpgradeCount : ℕ
  healthBonus : ℤ
  damageBonus : ℚ
  damageBase : ℤ
  enemyMaxHealth : ℤ
  isSelecting : Bool
  selectionStartX : ℕ
  selectionStartY : ℕ
  selectionEndX : ℕ
  selectionEndY : ℕ
  selectedSum : ℕ
  animationTimer : ℚ
  animationFrame : ℕ
  enemyAnimationTimer : ℚ
  enemyAnimationFrame : ℕ
  isAttacking : Bool
  attackAnimationFrame : ℕ
  attackAnimationTimer : ℚ
  currentAttackSprite : ℕ
  nextAttackSprite : ℕ
  isEnemyAttacking : Bool
  enemyAttackAnimationFrame : ℕ
  enemyAttackAnimationTimer : ℚ
  runningAnimationTimer : ℚ
  runningAnimationFrame : ℕ
  damageTexts : List DamageText
  loadedAssets : AssetKey → Bool
  scramblesRemaining : ℕ
  isScrambling : Bool
  scrambleTimer : ℚ
  scrambleAnimation : List ScrambleAnim
  isDraggingBGM : Bool
  isDraggingSFX : Bool
  gameOverLeaderboardRequested : Bool

/-! ## Grid helpers -/

/-- The cell used as an out-of-range default; reachable grids are always
10×10 so it is never consulted on in-range indices. -/
def defaultCell : GameCell := ⟨0, false, 0, 0⟩

/-- `this.grid[y][x]`. -/
def cellAt (g : List (List GameCell)) (y x : ℕ) : GameCell :=
  (g.getD y []).getD x defaultCell

/-- List map with the element index, defined by plain recursion so that its
equations are convenient for induction. -/
def mapIdxFrom (f : ℕ → α → β) : ℕ → List α → List β
  | _, [] => []
  | i, a :: as => f i a :: mapIdxFrom f (i + 1) as

/-- Map a function over all cells of the grid, with coordinates. -/
def mapGridIdx (f : ℕ → ℕ → GameCell → GameCell) (g : List (List GameCell)) :
    List (List GameCell) :=
  mapIdxFrom (fun y row => mapIdxFrom (fun x c => f y x c) 0 row) 0 g

/-- The inclusive index range `[a..b]` used by the nested `for` loops. -/
def spanIncl (a b : ℕ) : List ℕ := (List.range (b + 1 - a)).map (fun i => a + i)

/-- `createGrid()`: fill all cells with `Math.floor(Math.random()*9) + 1`.
The random draws are the `rand` parameter (the drawn `Math.floor` value,
always in `[0,8]`, is `rand y x`). -/
def createGrid (rand : ℕ → ℕ → ℕ) : List (List GameCell) :=
  (List.range GRID_SIZE).map (fun y =>
    (List.range GRID_SIZE).map (fun x =>
      { value := rand y x + 1, selected := false, x := x, y := y }))

/-- `clearSelection()`: unselect every cell and zero `selectedSum`.  The
source iterates all `GRID_SIZE × GRID_SIZE` index pairs; on the (always
10×10) grid this is a map over every cell. -/
def clearSelection (st : NC) : NC :=
  { st with
    grid := st.grid.map (fun row => row.map (fun c => { c with selected := false }))
    selectedSum := 0 }

/-- `updateSelection()`: clear, then select the normalized inclusive
rectangle and accumulate `selectedSum` over it. -/
def updateSelection (st : NC) : NC :=
  let st := clearSelection st
  let startX := min st.selectionStartX st.selectionEndX
  let startY := min st.selectionStartY st.selectionEndY
  let endX := max st.selectionStartX st.selectionEndX
  let endY := max st.selectionStartY st.selectionEndY
  let grid := mapGridIdx (fun y x c =>
    if startY ≤ y ∧ y ≤ endY ∧ startX ≤ x ∧ x ≤ endX then { c with selected := true } else c)
    st.grid
  let selSum := ((spanIncl startY endY).map (fun y =>
    ((spanIncl startX endX).map (fun x => (cellAt grid y x).value)).sum)).sum
  { st with grid := grid, selectedSum := selSum }

/-- `isClickInButton(clickX, clickY, buttonX, buttonY, buttonWidth,
buttonHeight)`. -/
def isClickInButton (clickX clickY buttonX buttonY buttonWidth buttonHeight : ℚ) : Bool :=
  clickX ≥ buttonX - buttonWidth / 2 ∧
  clickX ≤ buttonX + buttonWidth / 2 ∧
  clickY ≥ buttonY - buttonHeight / 2 ∧
  clickY ≤ buttonY + buttonHeight / 2

/-- `isClickInSlider` (extra ±10 vertical padding for the handle). -/
def isClickInSlider (clickX clickY sliderX sliderY sliderWidth sliderHeight : ℚ) : Bool :=
  clickX ≥ sliderX - sliderWidth / 2 ∧
  clickX ≤ sliderX + sliderWidth / 2 ∧
  clickY ≥ sliderY - sliderHeight / 2 - 10 ∧
  clickY ≤ sliderY + sliderHeight / 2 + 10

/-! ## Match resolution -/

/-- `triggerAttackAnimation()`. -/
def triggerAttackAnimation (st : NC) : NC :=
  if st.loadedAssets AssetKey.attackSprites ∧ ¬ st.isAttacking then
    { st with
      isAttacking := true
      attackAnimationFrame := 0
      attackAnimationTimer := 0
      currentAttackSprite := st.nextAttackSprite
      nextAttackSprite := if st.nextAttackSprite = 1 then 2 else 1 }
  else st

/-- `processMatch()`: normalize the rectangle, count non-zero tiles, clear
the rectangle, award score, deal enemy damage, push a damage text, trigger
the attack animation and clear the selection. -/
def processMatch (st : NC) : NC :=
  let startX := min st.selectionStartX st.selectionEndX
  let startY := min st.selectionStartY st.selectionEndY
  let endX := max st.selectionStartX st.selectionEndX
  let endY := max st.selectionStartY st.selectionEndY
  let tilesWithValues := ((spanIncl startY endY).map (fun y =>
    ((spanIncl startX endX).filter (fun x => (cellAt st.grid y x).value ≠ 0)).length)).sum
  let totalTilesInSelection := (endX - startX + 1) * (endY - startY + 1)
  let emptyTiles := totalTilesInSelection - tilesWithValues
  let grid := mapGridIdx (fun y x c =>
    if startY ≤ y ∧ y ≤ endY ∧ startX ≤ x ∧ x ≤ endX then { c with value := 0 } else c)
    st.grid
  let baseScore := tilesWithValues * POINTS_PER_TILE
  let emptyTileBonus := emptyTiles * 1
  let scoreEarned := baseScore + emptyTileBonus
  let damageDealt := jsRound ((tilesWithValues : ℚ) * ((st.damageBase : ℚ) + st.damageBonus))
  let st := { st with
    grid := grid
    score := st.score + scoreEarned
    enemyHealth := max 0 (st.enemyHealth - damageDealt)
    damageTexts := st.damageTexts ++
      [{ x := CANVAS_SIZE - 50 + 20, y := CANVAS_SIZE + 50 - 30, value := damageDealt,
         lifetime := 0, maxLifetime := 500, kind := DmgKind.enemy }] }
  let st := triggerAttackAnimation st
  clearSelection st

/-- `onMouseUp` (the gameplay part; the SFX-slider test sound is audio
output).  In the Playing state while selecting: a matching `selectedSum`
resolves the match, otherwise only the selection is cleared. -/
def onMouseUp (st : NC) : NC :=
  let st := { st with isDraggingBGM := false, isDraggingSFX := false }
  if st.currentState ≠ GState.playing then st
  else if ¬ st.isSelecting then st
  else
    let st := { st with isSelecting := false }
    if st.selectedSum = st.targetNumber then processMatch st else clearSelection st

/-! ## Scramble -/

/-- One entry pushed onto `originalCells`. -/
structure SourceCell where
  x : ℕ
  y : ℕ
  value : ℕ
deriving DecidableEq

/-- `[arr[i], arr[j]] = [arr[j], arr[i]]`, total on out-of-range indices
(the source only ever swaps in-range indices). -/
def listSwap (l : List α) (i j : ℕ) : List α :=
  if h₁ : i < l.length then
    if h₂ : j < l.length then (l.set i (l.get ⟨j, h₂⟩)).set j (l.get ⟨i, h₁⟩)
    else l
  else l

/-- The Fisher–Yates loop `for (i = n-1; i > 0; i--) swap(i, jChoice i)`;
`fyLoop jChoice l i` still has iterations `i, i-1, …, 1` to perform.
`jChoice i` models `Math.floor(Math.random() * (i + 1))`, always `≤ i`. -/
def fyLoop (jChoice : ℕ → ℕ) : List ℕ → ℕ → List ℕ
  | l, 0 => l
  | l, i + 1 => fyLoop jChoice (listSwap l (i + 1) (jChoice (i + 1))) i

/-- The full shuffled index list `shuffledIndices` for a pool of `n`
entries. -/
def shuffledIndices (jChoice : ℕ → ℕ) (n : ℕ) : List ℕ :=
  fyLoop jChoice (List.range n) (n - 1)

/-- `originalCells`: all non-zero cells with their positions, pushed in
row-major order. -/
def collectNonZero (g : List (List GameCell)) : List SourceCell :=
  ((mapIdxFrom (fun y row =>
      mapIdxFrom (fun x c => ({ x := x, y := y, value := c.value } : SourceCell)) 0 row)
    0 g).flatten).filter (fun s => s.value ≠ 0)

/-- The row-major assignment walk of `scrambleBoard` over one row, starting
at column `x` of row `y`: each non-zero-valued cell consumes the next entry
of the (already permuted) source list, records an animation entry, and takes
that entry's value; zero cells are untouched.  Returns the new row, the
unconsumed sources and the animation entries. -/
def scrambleRowGo (y : ℕ) :
    ℕ → List GameCell → List SourceCell → List GameCell × List SourceCell × List ScrambleAnim
  | _, [], src => ([], src, [])
  | x, c :: cs, src =>
    if c.value ≠ 0 then
      match src with
      | s :: stail =>
        let anim : ScrambleAnim :=
          { oldX := s.x * CELL_SIZE + CELL_SIZE / 2, oldY := s.y * CELL_SIZE + CELL_SIZE / 2,
            newX := x * CELL_SIZE + CELL_SIZE / 2, newY := y * CELL_SIZE + CELL_SIZE / 2,
            value := s.value }
        let r := scrambleRowGo y (x + 1) cs stail
        ({ c with value := s.value } :: r.1, r.2.1, anim :: r.2.2)
      | [] =>
        -- unreachable: the permuted pool has exactly one entry per non-zero cell
        let r := scrambleRowGo y (x + 1) cs []
        (c :: r.1, r.2.1, r.2.2)
    else
      let r := scrambleRowGo y (x + 1) cs src
      (c :: r.1, r.2.1, r.2.2)

/-- The outer row loop of the assignment walk, starting at row `y`. -/
def scrambleRows :
    ℕ → List (List GameCell) → List SourceCell →
    List (List GameCell) × List SourceCell × List ScrambleAnim
  | _, [], src => ([], src, [])
  | y, row :: rows, src =>
    let a := scrambleRowGo y 0 row src
    let b := scrambleRows (y + 1) rows a.2.1
    (a.1 :: b.1, b.2.1, a.2.2 ++ b.2.2)

/-- `scrambleBoard()`: guarded by Playing / not already scrambling /
scrambles remaining; collects the non-zero pool, Fisher–Yates-shuffles the
index list, and reassigns values in row-major order (the `k`-th non-zero
position receives `originalCells[shuffledIndices[k]]`). -/
def scrambleBoard (st : NC) (jChoice : ℕ → ℕ) : NC :=
  if st.currentState ≠ GState.playing ∨ st.isScrambling ∨ st.scramblesRemaining = 0 then st
  else
    let st := { st with
      isScrambling := true
      scrambleTimer := 0
      scramblesRemaining := st.scramblesRemaining - 1 }
    let originalCells := collectNonZero st.grid
    let perm := shuffledIndices jChoice originalCells.length
    let assigned := perm.map (fun k => originalCells.getD k ⟨0, 0, 0⟩)
    let r := scrambleRows 0 st.grid assigned
    { st with grid := r.1, scrambleAnimation := r.2.2 }

/-- `finishScrambling()`. -/
def finishScrambling (st : NC) : NC :=
  { st with isScrambling := false, scrambleTimer := 0, scrambleAnimation := [] }

/-! ## The per-frame update -/

/-- `calculateNextTarget()`: `TARGET_BASE + nextLevel + (draw + TARGET_RANDOM_MIN)`
where `draw` models `Math.floor(Math.random() * (max - min + 1))`, always
`≤ 1` here. -/
def calculateNextTarget (st : NC) (randTarget : ℕ) : ℕ :=
  TARGET_BASE + (st.level + 1) + (randTarget + TARGET_RANDOM_MIN)

/-- The per-`DamageText` step of `update` (lifetime advance, drift, removal
when expired).  The source mutates in place and splices expired entries out
backwards, which preserves order, so it is a `filterMap`. -/
def updDamageText (dt : ℚ) (d : DamageText) : Option DamageText :=
  let lt := d.lifetime + dt
  let y := d.y - (1/2 - lt / d.maxLifetime)
  let x := match d.kind with
    | DmgKind.enemy => d.x + 3/10
    | DmgKind.player => d.x - 3/10
  if lt ≥ d.maxLifetime then none else some { d with lifetime := lt, y := y, x := x }

/-- The unconditional animation part of `update(deltaTime)` (player idle,
enemy idle, attack completion, enemy attack completion, running animation,
damage texts); runs on every tick regardless of state. -/
def updateAnimations (st : NC) (dt : ℚ) : NC :=
  let st :=
    let t := st.animationTimer + dt
    if t ≥ 150 then { st with animationTimer := 0, animationFrame := (st.animationFrame + 1) % 8 }
    else { st with animationTimer := t }
  let st :=
    let t := st.enemyAnimationTimer + dt
    if t ≥ 150 then
      { st with enemyAnimationTimer := 0, enemyAnimationFrame := (st.enemyAnimationFrame + 1) % 7 }
    else { st with enemyAnimationTimer := t }
  let st :=
    if st.isAttacking then
      let t := st.attackAnimationTimer + dt
      if t ≥ 100 then
        let f := st.attackAnimationFrame + 1
        if f ≥ 4 then
          { st with attackAnimationTimer := 0, attackAnimationFrame := 0, isAttacking := false,
                    animationFrame := 0, animationTimer := 0 }
        else { st with attackAnimationTimer := 0, attackAnimationFrame := f }
      else { st with attackAnimationTimer := t }
    else st
  let st :=
    if st.isEnemyAttacking then
      let t := st.enemyAttackAnimationTimer + dt
      if t ≥ 100 then
        let f := st.enemyAttackAnimationFrame + 1
        if f ≥ 6 then
          { st with enemyAttackAnimationTimer := 0, enemyAttackAnimationFrame := 0,
                    isEnemyAttacking := false, enemyAnimationFrame := 0, enemyAnimationTimer := 0 }
        else { st with enemyAttackAnimationTimer := 0, enemyAttackAnimationFrame := f }
      else { st with enemyAttackAnimationTimer := t }
    else st
  let st :=
    let t := st.runningAnimationTimer + dt
    if t ≥ 120 then
      { st with runningAnimationTimer := 0,
                runningAnimationFrame := (st.runningAnimationFrame + 1) % 6 }
    else { st with runningAnimationTimer := t }
  { st with damageTexts := st.damageTexts.filterMap (updDamageText dt) }

/-- `update(deltaTime)`.  After the unconditional animation updates: early
return unless Playing; a scramble in progress only advances `scrambleTimer`
(finishing at the animation duration) and returns; otherwise the enemy
attack timer advances and fires at the interval, then the lose check (player
dead → GameOver, leaderboard handling invoked) and the win check (enemy dead
→ award health and scramble bonuses, pre-compute `nextTarget`, →
ChooseUpgrade) run in that order.  `randTarget` models the random draw of
`calculateNextTarget`.  Sounds and `cdr.detectChanges()` are presentation
effects; `handleGameOverLeaderboard()` is asynchronous and performs no
synchronous state mutation, so it is recorded as a request flag. -/
def update (st : NC) (dt : ℚ) (randTarget : ℕ) : NC :=
  let st := updateAnimations st dt
  if st.currentState ≠ GState.playing then st
  else if st.isScrambling then
    let st := { st with scrambleTimer := st.scrambleTimer + dt }
    if st.scrambleTimer ≥ SCRAMBLE_ANIMATION_DURATION then finishScrambling st else st
  else
    let st : NC :=
      let t := st.enemyAttackTimer + dt
      if t ≥ ENEMY_ATTACK_INTERVAL then
        let st := { st with enemyAttackTimer := 0 }
        let st :=
          if st.loadedAssets AssetKey.enemyAttackSprite ∧ ¬ st.isEnemyAttacking then
            { st with isEnemyAttacking := true, enemyAttackAnimationFrame := 0,
                      enemyAttackAnimationTimer := 0 }
          else st
        let st := { st with playerHealth := max 0 (st.playerHealth - jsRound (ENEMY_ATTACK_DAMAGE : ℚ)) }
        { st with damageTexts := st.damageTexts ++
            [{ x := 50 - 20, y := CANVAS_SIZE + 50 - 30, value := jsRound (ENEMY_ATTACK_DAMAGE : ℚ),
               lifetime := 0, maxLifetime := 500, kind := DmgKind.player }] }
      else { st with enemyAttackTimer := t }
    let st : NC :=
      if st.playerHealth ≤ 0 then
        { st with currentState := GState.gameOver, gameOverLeaderboardRequested := true }
      else st
    if st.enemyHealth ≤ 0 then
      let healthPercentage : ℚ := (st.playerHealth : ℚ) / (MAX_HEALTH : ℚ)
      let healthBonusAward := jsFloor ((st.score : ℚ) * healthPercentage * (1/2))
      let st := { st with score := st.score + healthBonusAward, lastHealthBonus := healthBonusAward }
      let scrambleBonus := (st.scramblesRemaining : ℤ) * 50
      let st := { st with score := st.score + scrambleBonus, lastScrambleBonus := scrambleBonus }
      { st with nextTarget := calculateNextTarget st randTarget,
                currentState := GState.chooseUpgrade }
    else st

/-! ## Game lifecycle -/

/-- `applyDifficultySettings()`. -/
def applyDifficultySettings (st : NC) : NC :=
  match st.settings.difficulty with
  | Difficulty.easy =>
    let emh := jsFloor ((ENEMY_MAX_HEALTH : ℚ) * ((EASY_DAMAGE_BASE : ℚ) / (NORMAL_DAMAGE_BASE : ℚ)))
    { st with playerHealth := jsFloor ((EASY_HEALTH : ℚ) + (st.healthBonus : ℚ)),
              damageBase := EASY_DAMAGE_BASE, enemyMaxHealth := emh, enemyHealth := emh }
  | Difficulty.normal =>
    { st with playerHealth := jsFloor ((MAX_HEALTH : ℚ) + (st.healthBonus : ℚ)),
              damageBase := NORMAL_DAMAGE_BASE, enemyMaxHealth := ENEMY_MAX_HEALTH,
              enemyHealth := ENEMY_MAX_HEALTH }
  | Difficulty.hard =>
    let emh := jsFloor ((ENEMY_MAX_HEALTH : ℚ) * ((HARD_DAMAGE_BASE : ℚ) / (NORMAL_DAMAGE_BASE : ℚ)))
    { st with playerHealth := jsFloor ((HARD_HEALTH : ℚ) + (st.healthBonus : ℚ)),
              damageBase := HARD_DAMAGE_BASE, enemyMaxHealth := emh, enemyHealth := emh }

/-- The player max health computed by `drawUI()` from the difficulty base
and `healthMultiplier` — the code's own notion of displayed maximum player
health. -/
def drawUIPlayerMaxHealth (st : NC) : ℤ :=
  let baseHealth : ℤ :=
    match st.settings.difficulty with
    | Difficulty.easy => EASY_HEALTH
    | Difficulty.normal => MAX_HEALTH
    | Difficulty.hard => HARD_HEALTH
  jsFloor ((baseHealth : ℚ) * st.healthMultiplier)

/-- `getDifficultyMultiplier()`. -/
def getDifficultyMultiplier (st : NC) : ℚ :=
  match st.settings.difficulty with
  | Difficulty.easy => 3/4
  | Difficulty.normal => 1
  | Difficulty.hard => 5/4

/-- `startGame()` (BGM/volume calls omitted as audio). -/
def startGame (st : NC) (gridRand : ℕ → ℕ → ℕ) : NC :=
  let st := { st with
    score := 0
    level := 1
    targetNumber := 10
    enemyAttackTimer := 0
    scramblesRemaining := SCRAMBLES_PER_LEVEL
    isScrambling := false
    scrambleTimer := 0
    damageMultiplier := 1
    healthMultiplier := 1
    damageUpgradeCount := 0
    healthUpgradeCount := 0
    healthBonus := 0
    damageBonus := 0
    damageBase := NORMAL_DAMAGE_BASE
    enemyMaxHealth := ENEMY_MAX_HEALTH
    nextAttackSprite := 1 }
  let st := clearSelection st
  let st := { st with grid := createGrid gridRand }
  let st := applyDifficultySettings st
  { st with currentState := GState.playing }

/-- `nextLevel()`. -/
def nextLevel (st : NC) (gridRand : ℕ → ℕ → ℕ) : NC :=
  let st := { st with
    level := st.level + 1
    targetNumber := st.nextTarget
    scramblesRemaining := SCRAMBLES_PER_LEVEL
    nextAttackSprite := 1 }
  let st := applyDifficultySettings st
  let st := { st with grid := createGrid gridRand }
  { st with currentState := GState.playing }

/-- `gameOver()` (the reset routine used by `restartGame`; note it does not
touch `enemyMaxHealth`, `damageBase`, `enemyAttackTimer` or the upgrade
counters). -/
def gameOverReset (st : NC) (gridRand : ℕ → ℕ → ℕ) : NC :=
  let st := { st with
    score := 0
    lastHealthBonus := 0
    lastScrambleBonus := 0
    level := 1
    targetNumber := 10
    playerHealth := MAX_HEALTH
    enemyHealth := ENEMY_MAX_HEALTH
    scramblesRemaining := SCRAMBLES_PER_LEVEL
    isScrambling := false
    scrambleTimer := 0
    scrambleAnimation := []
    damageMultiplier := 1
    healthBonus := 0
    damageBonus := 0 }
  { st with grid := createGrid gridRand }

/-- `restartGame()`. -/
def restartGame (st : NC) (gridRand : ℕ → ℕ → ℕ) : NC :=
  let st := gameOverReset st gridRand
  { st with currentState := GState.menu }

/-! ## Input handlers (the `@HostListener` dispatch and per-state click
handlers; x/y are the canvas coordinates after scale adjustment) -/

/-- `handleMenuClick` (the Leaderboard branch also fires the asynchronous
`loadLeaderboard`, which touches only the external leaderboard cache). -/
def handleMenuClick (st : NC) (x y : ℚ) (gridRand : ℕ → ℕ → ℕ) : NC :=
  if isClickInButton x y (CANVAS_SIZE / 2) 180 200 50 then startGame st gridRand
  else if isClickInButton x y (CANVAS_SIZE / 2) 250 200 50 then
    { st with currentState := GState.options }
  else if isClickInButton x y (CANVAS_SIZE / 2) 320 200 50 then
    { st with currentState := GState.leaderboard }
  else st

/-- `handleGameClick`: no interaction while scrambling; scramble button,
else selection start on a grid cell. -/
def handleGameClick (st : NC) (x y : ℚ) (jChoice : ℕ → ℕ) : NC :=
  if st.isScrambling then st
  else if st.scramblesRemaining > 0 ∧ ¬ st.isScrambling ∧
      isClickInButton x y (CANVAS_SIZE / 2) (CANVAS_SIZE + 30) 120 35 then
    scrambleBoard st jChoice
  else
    let gridX := jsFloor (x / CELL_SIZE)
    let gridY := jsFloor (y / CELL_SIZE)
    if 0 ≤ gridX ∧ gridX < (GRID_SIZE : ℤ) ∧ 0 ≤ gridY ∧ gridY < (GRID_SIZE : ℤ) then
      updateSelection { st with
        isSelecting := true
        selectionStartX := gridX.toNat, selectionStartY := gridY.toNat
        selectionEndX := gridX.toNat, selectionEndY := gridY.toNat }
    else st

/-- `handleOptionsClick` (sliders set drag flags and volumes; difficulty
buttons set the difficulty; back returns to the menu). -/
def handleOptionsClick (st : NC) (x y : ℚ) : NC :=
  if isClickInSlider x y (CANVAS_SIZE / 2) 120 200 20 then
    { st with isDraggingBGM := true,
              settings := { st.settings with
                bgmVolume := max 0 (min 1 ((x - (CANVAS_SIZE / 2 - 100)) / 200)) } }
  else if isClickInSlider x y (CANVAS_SIZE / 2) 180 200 20 then
    { st with isDraggingSFX := true,
              settings := { st.settings with
                sfxVolume := max 0 (min 1 ((x - (CANVAS_SIZE / 2 - 100)) / 200)) } }
  else if isClickInButton x y (CANVAS_SIZE / 2) 230 150 40 then
    { st with settings := { st.settings with difficulty := Difficulty.easy } }
  else if isClickInButton x y (CANVAS_SIZE / 2) 280 150 40 then
    { st with settings := { st.settings with difficulty := Difficulty.normal } }
  else if isClickInButton x y (CANVAS_SIZE / 2) 330 150 40 then
    { st with settings := { st.settings with difficulty := Difficulty.hard } }
  else if isClickInButton x y (CANVAS_SIZE / 2) (CANVAS_SIZE + 30) 160 40 then
    { st with currentState := GState.menu }
  else st

/-- `handleGameOverClick`. -/
def handleGameOverClick (st : NC) (x y : ℚ) (gridRand : ℕ → ℕ → ℕ) : NC :=
  if isClickInButton x y (CANVAS_SIZE / 2) 300 180 50 then startGame st gridRand
  else if isClickInButton x y (CANVAS_SIZE / 2) 380 180 50 then
    { st with currentState := GState.menu }
  else st

/-- `handleChooseUpgradeClick`: flat `+5` health bonus or flat `+0.5` damage
bonus, then `nextLevel()`. -/
def handleChooseUpgradeClick (st : NC) (x y : ℚ) (gridRand : ℕ → ℕ → ℕ) : NC :=
  if isClickInButton x y (CANVAS_SIZE / 2) 225 160 50 then
    nextLevel { st with healthBonus := st.healthBonus + HEALTH_UPGRADE_BONUS } gridRand
  else if isClickInButton x y (CANVAS_SIZE / 2) 295 160 50 then
    nextLevel { st with damageBonus := st.damageBonus + DAMAGE_UPGRADE_BONUS } gridRand
  else st

/-- `handleLeaderboardClick`. -/
def handleLeaderboardClick (st : NC) (x y : ℚ) : NC :=
  if isClickInButton x y (CANVAS_SIZE / 2) (CANVAS_SIZE + 60) 160 40 then
    { st with currentState := GState.menu }
  else st

/-- `handleLeaderboardNameInputClick` (submit/skip both synchronously return
to GameOver; the entry write is external and best-effort; input focus is a
DOM concern). -/
def handleLeaderboardNameInputClick (st : NC) (x y : ℚ) : NC :=
  if x ≥ 50 ∧ x ≤ CANVAS_SIZE - 50 ∧ y ≥ 240 ∧ y ≤ 280 then st
  else if isClickInButton x y (CANVAS_SIZE / 2 - 100) 340 160 45 then
    { st with currentState := GState.gameOver }
  else if isClickInButton x y (CANVAS_SIZE / 2 + 100) 340 160 45 then
    { st with currentState := GState.gameOver }
  else st

/-- `onMouseDown` / `onTouchStart`: dispatch on the current state. -/
def onMouseDown (st : NC) (x y : ℚ) (jChoice : ℕ → ℕ) (gridRand : ℕ → ℕ → ℕ) : NC :=
  match st.currentState with
  | GState.loading => st
  | GState.menu => handleMenuClick st x y gridRand
  | GState.playing => handleGameClick st x y jChoice
  | GState.options => handleOptionsClick st x y
  | GState.gameOver => handleGameOverClick st x y gridRand
  | GState.chooseUpgrade => handleChooseUpgradeClick st x y gridRand
  | GState.leaderboard => handleLeaderboardClick st x y
  | GState.leaderboardNameInput => handleLeaderboardNameInputClick st x y

/-- `onMouseMove` / `onTouchMove`: slider dragging in Options, otherwise
selection extension while selecting in Playing. -/
def onMouseMove (st : NC) (x y : ℚ) : NC :=
  if st.currentState = GState.options then
    if st.isDraggingBGM then
      { st with settings := { st.settings with
          bgmVolume := max 0 (min 1 ((x - (CANVAS_SIZE / 2 - 100)) / 200)) } }
    else if st.isDraggingSFX then
      { st with settings := { st.settings with
          sfxVolume := max 0 (min 1 ((x - (CANVAS_SIZE / 2 - 100)) / 200)) } }
    else st
  else if st.currentState ≠ GState.playing ∨ ¬ st.isSelecting then st
  else
    let gridX := jsFloor (x / CELL_SIZE)
    let gridY := jsFloor (y / CELL_SIZE)
    if 0 ≤ gridX ∧ gridX < (GRID_SIZE : ℤ) ∧ 0 ≤ gridY ∧ gridY < (GRID_SIZE : ℤ) then
      updateSelection { st with selectionEndX := gridX.toNat, selectionEndY := gridY.toNat }
    else st

/-! ## Session start and reachability -/

/-- The component state after construction and `ngOnInit` (field
initializers, then `currentState := LOADING` and `createGrid()`); all asset
groups are still pending. -/
def initialNC (gridRand : ℕ → ℕ → ℕ) : NC where
  currentState := GState.loading
  settings := { bgmVolume := 1/4, sfxVolume := 7/20, difficulty := Difficulty.normal, muted := false }
  grid := createGrid gridRand
  targetNumber := 10
  score := 0
  lastHealthBonus := 0
  lastScrambleBonus := 0
  level := 1
  playerHealth := MAX_HEALTH
  enemyHealth := ENEMY_MAX_HEALTH
  nextTarget := 0
  enemyAttackTimer := 0
  damageMultiplier := 1
  healthMultiplier := 1
  damageUpgradeCount := 0
  healthUpgradeCount := 0
  healthBonus := 0
  damageBonus := 0
  damageBase := NORMAL_DAMAGE_BASE
  enemyMaxHealth := ENEMY_MAX_HEALTH
  isSelecting := false
  selectionStartX := 0
  selectionStartY := 0
  selectionEndX := 0
  selectionEndY := 0
  selectedSum := 0
  animationTimer := 0
  animationFrame := 0
  enemyAnimationTimer := 0
  enemyAnimationFrame := 0
  isAttacking := false
  attackAnimationFrame := 0
  attackAnimationTimer := 0
  currentAttackSprite := 1
  nextAttackSprite := 1
  isEnemyAttacking := false
  enemyAttackAnimationFrame := 0
  enemyAttackAnimationTimer := 0
  runningAnimationTimer := 0
  runningAnimationFrame := 0
  damageTexts := []
  loadedAssets := fun _ => false
  scramblesRemaining := 3
  isScrambling := false
  scrambleTimer := 0
  scrambleAnimation := []
  isDraggingBGM := false
  isDraggingSFX := false
  gameOverLeaderboardRequested := false

/-- Marking one asset group loaded (a load callback / timeout firing). -/
def markAssetLoaded (st : NC) (k : AssetKey) : NC :=
  { st with loadedAssets := fun k2 => if k2 = k then true else st.loadedAssets k2 }

/-- The states a session can reach: the initial state, followed by any
interleaving of ticks, input events, asset-load completions, the
`loadAllAssets().then` transition to the menu, the deferred
leaderboard-qualification popup, and the template's restart button.  Random
draws carry exactly the bounds `Math.random` guarantees. -/
inductive Reachable : NC → Prop where
  | init (gridRand : ℕ → ℕ → ℕ) (hg : ∀ y x, gridRand y x ≤ 8) :
      Reachable (initialNC gridRand)
  | tick {st} (dt : ℚ) (randTarget : ℕ) (hdt : 0 ≤ dt) (hr : randTarget ≤ 1) :
      Reachable st → Reachable (update st dt randTarget)
  | assetLoaded {st} (k : AssetKey) :
      Reachable st → Reachable (markAssetLoaded st k)
  | loadingDone {st} :
      Reachable st → st.currentState = GState.loading →
      Reachable { st with currentState := GState.menu }
  | mouseDown {st} (x y : ℚ) (jChoice : ℕ → ℕ) (gridRand : ℕ → ℕ → ℕ)
      (hj : ∀ i, jChoice i ≤ i) (hg : ∀ y2 x2, gridRand y2 x2 ≤ 8) :
      Reachable st → Reachable (onMouseDown st x y jChoice gridRand)
  | mouseMove {st} (x y : ℚ) :
      Reachable st → Reachable (onMouseMove st x y)
  | mouseUp {st} :
      Reachable st → Reachable (onMouseUp st)
  | namePopup {st} :
      Reachable st → st.gameOverLeaderboardRequested = true →
      Reachable { st with currentState := GState.leaderboardNameInput }
  | restart {st} (gridRand : ℕ → ℕ → ℕ) (hg : ∀ y x, gridRand y x ≤ 8) :
      Reachable st → Reachable (restartGame st gridRand)

/-! ## Asset loading gate

Each loader in the source registers callbacks that mark its group loaded.
`groupTimeoutMs` records, per group, the `setTimeout` deadline its loader
arms (if any): the six sprite loaders each arm a 5000 ms timeout that
force-marks the group loaded; `loadSoundEffects` and `loadBGM` arm none —
they settle only when every underlying audio element fires
`oncanplaythrough` or `onerror`. -/

/-- The registration order of `loadAllAssets()`. -/
def allAssetKeys : List AssetKey :=
  [AssetKey.playerSprite, AssetKey.attackSprites, AssetKey.enemySprite,
   AssetKey.enemyAttackSprite, AssetKey.runningSprite, AssetKey.avatarSprites,
   AssetKey.soundEffects, AssetKey.bgm]

/-- The timeout deadline (ms) armed by each group's loader, if any. -/
def groupTimeoutMs : AssetKey → Option ℕ
  | AssetKey.playerSprite => some 5000
  | AssetKey.attackSprites => some 5000
  | AssetKey.enemySprite => some 5000
  | AssetKey.enemyAttackSprite => some 5000
  | AssetKey.runningSprite => some 5000
  | AssetKey.avatarSprites => some 5000
  | AssetKey.soundEffects => none
  | AssetKey.bgm => none

/-- The three outcomes a resource-group load can register. -/
inductive LoadOutcome where
  | success
  | failure
  | timeout
deriving DecidableEq

/-- Whether an outcome marks the group loaded: every loader marks on
success and on error (each `.catch`/`onerror` path sets
`loadedAssets[...] = true`), and on timeout exactly when the loader armed
one. -/
def settlesGroup (k : AssetKey) : LoadOutcome → Bool
  | LoadOutcome.success => true
  | LoadOutcome.failure => true
  | LoadOutcome.timeout => (groupTimeoutMs k).isSome

/-- `updateLoadingProgress()`: `loadedCount / totalAssets * 100`, and `100`
when no groups are registered. -/
def loadingProgress (totalAssets loadedCount : ℕ) : ℚ :=
  if totalAssets > 0 then ((loadedCount : ℚ) / (totalAssets : ℚ)) * 100 else 100

/-- The number of groups currently marked loaded. -/
def loadedCountOf (loaded : AssetKey → Bool) : ℕ :=
  (allAssetKeys.filter (fun k => loaded k)).length

/-- The aggregate progress over the eight registered groups. -/
def currentProgress (loaded : AssetKey → Bool) : ℚ :=
  loadingProgress allAssetKeys.length (loadedCountOf loaded)

/-! ## Concrete sessions (for claim counterexamples)

A fully explicit session: every `Math.random` draw is modelled as 0, so
`createGrid` fills the board with 1s and Fisher–Yates leaves the identity. -/

def zeroRand : ℕ → ℕ → ℕ := fun _ _ => 0

def zeroJ : ℕ → ℕ := fun _ => 0

/-- The claim's notion of the player's current maximum health: determined
by the selected difficulty and accumulated health upgrades (the value
`applyDifficultySettings` assigns at full health).  Modelled from the
claim's words, for comparison with what the code divides by. -/
def claimedPlayerMaxHealth (st : NC) : ℤ :=
  match st.settings.difficulty with
  | Difficulty.easy => EASY_HEALTH + st.healthBonus
  | Difficulty.normal => MAX_HEALTH + st.healthBonus
  | Difficulty.hard => HARD_HEALTH + st.healthBonus

/-- The health bonus the claim describes:
`floor(score × (playerHealth / playerMaxHealth) × 0.5)` with
`playerMaxHealth` difficulty- and upgrade-dependent. -/
def claimedHealthBonus (st : NC) : ℤ :=
  jsFloor ((st.score : ℚ) * ((st.playerHealth : ℚ) / (claimedPlayerMaxHealth st : ℚ)) * (1/2))

/-- Session start. -/
def c1s0 : NC := initialNC zeroRand

/-- All assets settled, `loadAllAssets().then` fired. -/
def c1s1 : NC := { c1s0 with currentState := GState.menu }

/-- Menu: Options button. -/
def c1s2 : NC := onMouseDown c1s1 200 250 zeroJ zeroRand

/-- Options: Easy button. -/
def c1s3 : NC := onMouseDown c1s2 200 230 zeroJ zeroRand

/-- Options: Back button. -/
def c1s4 : NC := onMouseDown c1s3 200 430 zeroJ zeroRand

/-- Menu: Play button (starts an Easy game on an all-1s grid, target 10). -/
def c1s5 : NC := onMouseDown c1s4 200 180 zeroJ zeroRand

/-- Select one full row (press at its left cell, drag to its right cell,
release): ten 1-cells sum to the target 10, so the match resolves. -/
def c1row (st : NC) (py : ℚ) : NC :=
  onMouseUp (onMouseMove (onMouseDown st 20 py zeroJ zeroRand) 380 py)

def c1s6 : NC := c1row c1s5 20
def c1s7 : NC := c1row c1s6 60
def c1s8 : NC := c1row c1s7 100
def c1s9 : NC := c1row c1s8 140

/-- After the fifth cleared row the enemy (360 HP on Easy, 80 damage per
10-tile match) is at exactly 0 while the player still has full health 150
and the score is 500. -/
def c1s10 : NC := c1row c1s9 180

/-- Menu: Play button (starts a Normal game on an all-1s grid). -/
def c6s2 : NC := onMouseDown c1s1 200 180 zeroJ zeroRand

def c6s3 : NC := c1row c6s2 20
def c6s4 : NC := c1row c6s3 60
def c6s5 : NC := c1row c6s4 100
def c6s6 : NC := c1row c6s5 140

/-- After five cleared rows the enemy (450 HP on Normal, 100 damage per
10-tile match) is at exactly 0. -/
def c6s7 : NC := c1row c6s6 180

/-- One tick: the win branch fires, state becomes ChooseUpgrade. -/
def c6s8 : NC := update c6s7 1 0

/-- ChooseUpgrade: the health-upgrade button (flat +5, then
`nextLevel()`). -/
def c6s9 : NC := onMouseDown c6s8 200 225 zeroJ zeroRand

/-- The health bounds that actually hold on reachable states (the amended
C6 invariant): health values never go negative, the player's health never
exceeds the largest difficulty base (`EASY_HEALTH = 150`) plus the
accumulated flat health bonus, and the enemy's health never exceeds the
Hard-difficulty maximum `floor(450 × 12/10) = 540`.  The auxiliary sign
facts are carried because the induction needs them. -/
def HealthInvariant (st : NC) : Prop :=
  0 ≤ st.playerHealth ∧
  st.playerHealth ≤ EASY_HEALTH + st.healthBonus ∧
  0 ≤ st.enemyHealth ∧
  st.enemyHealth ≤ 540 ∧
  0 ≤ st.healthBonus ∧
  0 ≤ st.damageBonus ∧
  0 ≤ st.damageBase

/-- A Playing-state session (used to witness the combat-tick theorems). -/
def samplePlaying : NC := { initialNC zeroRand with currentState := GState.playing }

/-- A Playing-state session mid-scramble. -/
def sampleScrambling : NC :=
  { initialNC zeroRand with currentState := GState.playing, isScrambling := true }

/-- A Playing-state session with both combatants at zero health. -/
def sampleBothDead : NC :=
  { initialNC zeroRand with
    currentState := GState.playing, playerHealth := 0, enemyHealth := 0 }

/-- A Playing-state session with only the enemy at zero health. -/
def sampleEnemyDead : NC :=
  { initialNC zeroRand with currentState := GState.playing, enemyHealth := 0 }

/-- A Playing-state session holding a released full-row selection whose sum
10 matches the target (the all-1s grid's first row). -/
def sampleSelected : NC :=
  { initialNC zeroRand with
    currentState := GState.playing, isSelecting := true,
    selectionStartX := 0, selectionStartY := 0, selectionEndX := 9, selectionEndY := 0,
    selectedSum := 10 }

/-- Like `sampleSelected` but with a sum that misses the target. -/
def sampleSelectedBad : NC :=
  { initialNC zeroRand with
    currentState := GState.playing, isSelecting := true,
    selectionStartX := 0, selectionStartY := 0, selectionEndX := 8, selectionEndY := 0,
    selectedSum := 9 }

/-- Number of non-zero-valued cells in a cell list. -/
def countNZ (cells : List GameCell) : ℕ :=
  (cells.filter (fun c => c.value ≠ 0)).length

/-- The values of the non-zero-valued cells of a cell list, in order. -/
def nzVals (cells : List GameCell) : List ℕ :=
  (cells.filter (fun c => c.value ≠ 0)).map (fun c => c.value)

/-- The non-zero cell values of the grid in row-major order. -/
def gridNonZeroValues (g : List (List GameCell)) : List ℕ :=
  (g.flatten.filter (fun c => c.value ≠ 0)).map (fun c => c.value)

/-- Number of non-zero-valued cells of the whole grid. -/
def gridCountNZ (g : List (List GameCell)) : ℕ := (g.map countNZ).sum

/-! ## Basic arithmetic lemmas -/

theorem jsFloor_intCast_add (a b : ℤ) : jsFloor ((a : ℚ) + (b : ℚ)) = a + b := by
  rw [jsFloor, show ((a : ℚ) + (b : ℚ)) = ((a + b : ℤ) : ℚ) by push_cast; ring, Int.floor_intCast]

theorem jsRound_intCast (a : ℤ) : jsRound ((a : ℚ)) = a := by
  rw [jsRound, Int.floor_eq_iff]
  constructor
  · linarith [show (0:ℚ) ≤ 1/2 by norm_num]
  · linarith [show (1/2 : ℚ) < 1 by norm_num]

/-! ## Field-preservation lemmas for the animation part of `update` -/

theorem updateAnimations_currentState (st : NC) (dt : ℚ) :
    (updateAnimations st dt).currentState = st.currentState := by
  simp [updateAnimations, apply_ite NC.currentState]

theorem updateAnimations_isScrambling (st : NC) (dt : ℚ) :
    (updateAnimations st dt).isScrambling = st.isScrambling := by
  simp [updateAnimations, apply_ite NC.isScrambling]

theorem updateAnimations_scrambleTimer (st : NC) (dt : ℚ) :
    (updateAnimations st dt).scrambleTimer = st.scrambleTimer := by
  simp [updateAnimations, apply_ite NC.scrambleTimer]

theorem updateAnimations_scrambleAnimation (st : NC) (dt : ℚ) :
    (updateAnimations st dt).scrambleAnimation = st.scrambleAnimation := by
  simp [updateAnimations, apply_ite NC.scrambleAnimation]

theorem updateAnimations_scramblesRemaining (st : NC) (dt : ℚ) :
    (updateAnimations st dt).scramblesRemaining = st.scramblesRemaining := by
  simp [updateAnimations, apply_ite NC.scramblesRemaining]

theorem updateAnimations_enemyAttackTimer (st : NC) (dt : ℚ) :
    (updateAnimations st dt).enemyAttackTimer = st.enemyAttackTimer := by
  simp [updateAnimations, apply_ite NC.enemyAttackTimer]

theorem updateAnimations_playerHealth (st : NC) (dt : ℚ) :
    (updateAnimations st dt).playerHealth = st.playerHealth := by
  simp [updateAnimations, apply_ite NC.playerHealth]

theorem updateAnimations_enemyHealth (st : NC) (dt : ℚ) :
    (updateAnimations st dt).enemyHealth = st.enemyHealth := by
  simp [updateAnimations, apply_ite NC.enemyHealth]

theorem updateAnimations_score (st : NC) (dt : ℚ) :
    (updateAnimations st dt).score = st.score := by
  simp [updateAnimations, apply_ite NC.score]

theorem updateAnimations_lastHealthBonus (st : NC) (dt : ℚ) :
    (updateAnimations st dt).lastHealthBonus = st.lastHealthBonus := by
  simp [updateAnimations, apply_ite NC.lastHealthBonus]

theorem updateAnimations_lastScrambleBonus (st : NC) (dt : ℚ) :
    (updateAnimations st dt).lastScrambleBonus = st.lastScrambleBonus := by
  simp [updateAnimations, apply_ite NC.lastScrambleBonus]

theorem updateAnimations_healthBonus (st : NC) (dt : ℚ) :
    (updateAnimations st dt).healthBonus = st.healthBonus := by
  simp [updateAnimations, apply_ite NC.healthBonus]

theorem updateAnimations_damageBonus (st : NC) (dt : ℚ) :
    (updateAnimations st dt).damageBonus = st.damageBonus := by
  simp [updateAnimations, apply_ite NC.damageBonus]

theorem updateAnimations_damageBase (st : NC) (dt : ℚ) :
    (updateAnimations st dt).damageBase = st.damageBase := by
  simp [updateAnimations, apply_ite NC.damageBase]

theorem updateAnimations_enemyMaxHealth (st : NC) (dt : ℚ) :
    (updateAnimations st dt).enemyMaxHealth = st.enemyMaxHealth := by
  simp [updateAnimations, apply_ite NC.enemyMaxHealth]

theorem updateAnimations_targetNumber (st : NC) (dt : ℚ) :
    (updateAnimations st dt).targetNumber = st.targetNumber := by
  simp [updateAnimations, apply_ite NC.targetNumber]

theorem updateAnimations_level (st : NC) (dt : ℚ) :
    (updateAnimations st dt).level = st.level := by
  simp [updateAnimations, apply_ite NC.level]

theorem updateAnimations_nextTarget (st : NC) (dt : ℚ) :
    (updateAnimations st dt).nextTarget = st.nextTarget := by
  simp [updateAnimations, apply_ite NC.nextTarget]

theorem updateAnimations_grid (st : NC) (dt : ℚ) :
    (updateAnimations st dt).grid = st.grid := by
  simp [updateAnimations, apply_ite NC.grid]

theorem updateAnimations_isSelecting (st : NC) (dt : ℚ) :
    (updateAnimations st dt).isSelecting = st.isSelecting := by
  simp [updateAnimations, apply_ite NC.isSelecting]

theorem updateAnimations_selectedSum (st : NC) (dt : ℚ) :
    (updateAnimations st dt).selectedSum = st.selectedSum := by
  simp [updateAnimations, apply_ite NC.selectedSum]

theorem updateAnimations_settings (st : NC) (dt : ℚ) :
    (updateAnimations st dt).settings = st.settings := by
  simp [updateAnimations, apply_ite NC.settings]

theorem updateAnimations_loadedAssets (st : NC) (dt : ℚ) :
    (updateAnimations st dt).loadedAssets = st.loadedAssets := by
  simp [updateAnimations, apply_ite NC.loadedAssets]

theorem updateAnimations_healthMultiplier (st : NC) (dt : ℚ) :
    (updateAnimations st dt).healthMultiplier = st.healthMultiplier := by
  simp [updateAnimations, apply_ite NC.healthMultiplier]

theorem updateAnimations_damageMultiplier (st : NC) (dt : ℚ) :
    (updateAnimations st dt).damageMultiplier = st.damageMultiplier := by
  simp [updateAnimations, apply_ite NC.damageMultiplier]

theorem updateAnimations_gameOverLeaderboardRequested (st : NC) (dt : ℚ) :
    (updateAnimations st dt).gameOverLeaderboardRequested = st.gameOverLeaderboardRequested := by
  simp [updateAnimations, apply_ite NC.gameOverLeaderboardRequested]

/-- In any state other than Playing, `update` performs only the animation
updates. -/
theorem update_not_playing (st : NC) (dt : ℚ) (r : ℕ)
    (h : st.currentState ≠ GState.playing) :
    update st dt r = updateAnimations st dt := by
  rw [update, if_pos]
  rw [updateAnimations_currentState]
  exact h

/-- C5: on every Playing-state tick that is not mid-scramble, the enemy
attack timer advances by `dt`; when it reaches the fixed, difficulty-
independent 8000 ms interval it resets to 0 and the player takes the fixed
8 damage (clamped at 0), exactly once in that tick. -/
theorem c5_enemy_attack_tick (st : NC) (dt : ℚ) (r : ℕ)
    (h1 : st.currentState = GState.playing) (h2 : st.isScrambling = false) :
    ENEMY_ATTACK_DAMAGE = 8 ∧
    ENEMY_ATTACK_INTERVAL = 8000 ∧
    (st.enemyAttackTimer + dt < ENEMY_ATTACK_INTERVAL →
      (update st dt r).enemyAttackTimer = st.enemyAttackTimer + dt ∧
      (update st dt r).playerHealth = st.playerHealth) ∧
    (ENEMY_ATTACK_INTERVAL ≤ st.enemyAttackTimer + dt →
      (update st dt r).enemyAttackTimer = 0 ∧
      (update st dt r).playerHealth = max 0 (st.playerHealth - ENEMY_ATTACK_DAMAGE)) := by
  refine ⟨rfl, rfl, fun hlt => ?_, fun hge => ?_⟩
  · have hcond : ¬ ENEMY_ATTACK_INTERVAL ≤ st.enemyAttackTimer + dt := not_le.mpr hlt
    simp only [update, updateAnimations_currentState, updateAnimations_isScrambling,
      updateAnimations_enemyAttackTimer, updateAnimations_playerHealth, h1, h2, ge_iff_le,
      hcond, ne_eq, not_true_eq_false, Bool.false_eq_true, if_false, ite_false,
      apply_ite NC.enemyAttackTimer, apply_ite NC.playerHealth]
    simp [updateAnimations_enemyAttackTimer, updateAnimations_playerHealth]
  · simp only [update, updateAnimations_currentState, updateAnimations_isScrambling,
      updateAnimations_enemyAttackTimer, updateAnimations_playerHealth, h1, h2, ge_iff_le,
      hge, ne_eq, not_true_eq_false, Bool.false_eq_true, if_false, if_true, ite_true,
      apply_ite NC.enemyAttackTimer, apply_ite NC.playerHealth]
    simp [updateAnimations_playerHealth, jsRound_intCast]

/-- C7: while a scramble is in progress, a Playing-state tick advances only
the scramble timer and the animation state: combat timer, health values,
score and the state are untouched; once the timer reaches the fixed 2000 ms
window the scramble ends (flag cleared, timer zeroed, animation emptied),
still without touching combat. -/
theorem c7_scramble_suspends_combat (st : NC) (dt : ℚ) (r : ℕ)
    (h1 : st.currentState = GState.playing) (h2 : st.isScrambling = true) :
    SCRAMBLE_ANIMATION_DURATION = 2000 ∧
    (update st dt r).enemyAttackTimer = st.enemyAttackTimer ∧
    (update st dt r).playerHealth = st.playerHealth ∧
    (update st dt r).enemyHealth = st.enemyHealth ∧
    (update st dt r).score = st.score ∧
    (update st dt r).currentState = GState.playing ∧
    (update st dt r).animationTimer = (updateAnimations st dt).animationTimer ∧
    (update st dt r).runningAnimationTimer = (updateAnimations st dt).runningAnimationTimer ∧
    (st.scrambleTimer + dt < SCRAMBLE_ANIMATION_DURATION →
      (update st dt r).isScrambling = true ∧
      (update st dt r).scrambleTimer = st.scrambleTimer + dt) ∧
    (SCRAMBLE_ANIMATION_DURATION ≤ st.scrambleTimer + dt →
      (update st dt r).isScrambling = false ∧
      (update st dt r).scrambleTimer = 0 ∧
      (update st dt r).scrambleAnimation = []) := by
  have hunfold : update st dt r =
      (let a := updateAnimations st dt
       let a2 : NC := { a with scrambleTimer := a.scrambleTimer + dt }
       if a2.scrambleTimer ≥ SCRAMBLE_ANIMATION_DURATION then finishScrambling a2 else a2) := by
    rw [update]
    rw [if_neg (by rw [updateAnimations_currentState, h1]; simp)]
    rw [if_pos (by rw [updateAnimations_isScrambling, h2])]
  refine ⟨rfl, ?_, ?_, ?_, ?_, ?_, ?_, ?_, fun hlt => ?_, fun hge => ?_⟩ <;>
    rw [hunfold] <;>
    simp only [finishScrambling, updateAnimations_scrambleTimer, ge_iff_le,
      apply_ite NC.enemyAttackTimer, apply_ite NC.playerHealth, apply_ite NC.enemyHealth,
      apply_ite NC.score, apply_ite NC.currentState, apply_ite NC.animationTimer,
      apply_ite NC.runningAnimationTimer, apply_ite NC.isScrambling,
      apply_ite NC.scrambleTimer, apply_ite NC.scrambleAnimation]
  · simp [updateAnimations_enemyAttackTimer]
  · simp [updateAnimations_playerHealth]
  · simp [updateAnimations_enemyHealth]
  · simp [updateAnimations_score]
  · simp [updateAnimations_currentState, h1]
  · simp
  · simp
  · simp only [if_neg (not_le.mpr hlt)]
    exact ⟨by rw [updateAnimations_isScrambling, h2], by trivial⟩
  · simp only [if_pos hge]
    exact ⟨by trivial, by trivial, by trivial⟩

/-- Characterization of the enemy-defeated branch of `update` on a tick
whose attack timer does not fire. -/
theorem update_win_branch (st : NC) (dt : ℚ) (r : ℕ)
    (h1 : st.currentState = GState.playing) (h2 : st.isScrambling = false)
    (hna : st.enemyAttackTimer + dt < ENEMY_ATTACK_INTERVAL)
    (he : st.enemyHealth ≤ 0) :
    (update st dt r).currentState = GState.chooseUpgrade ∧
    (update st dt r).lastHealthBonus =
      jsFloor ((st.score : ℚ) * ((st.playerHealth : ℚ) / (MAX_HEALTH : ℚ)) * (1/2)) ∧
    (update st dt r).lastScrambleBonus = (st.scramblesRemaining : ℤ) * 50 ∧
    (update st dt r).score =
      st.score + (update st dt r).lastHealthBonus + (update st dt r).lastScrambleBonus ∧
    (update st dt r).gameOverLeaderboardRequested =
      (if st.playerHealth ≤ 0 then true else st.gameOverLeaderboardRequested) ∧
    (update st dt r).playerHealth = st.playerHealth ∧
    (update st dt r).enemyHealth = st.enemyHealth ∧
    (update st dt r).scramblesRemaining = st.scramblesRemaining := by
  have hcond : ¬ ENEMY_ATTACK_INTERVAL ≤ st.enemyAttackTimer + dt := not_le.mpr hna
  simp only [update, updateAnimations_currentState, updateAnimations_isScrambling,
    updateAnimations_enemyAttackTimer, updateAnimations_playerHealth,
    updateAnimations_enemyHealth, updateAnimations_score, updateAnimations_lastHealthBonus,
    updateAnimations_lastScrambleBonus, updateAnimations_scramblesRemaining,
    updateAnimations_gameOverLeaderboardRequested, h1, h2, ge_iff_le, hcond,
    ne_eq, not_true_eq_false, Bool.false_eq_true, if_false, ite_false,
    apply_ite NC.currentState, apply_ite NC.lastHealthBonus, apply_ite NC.lastScrambleBonus,
    apply_ite NC.score, apply_ite NC.gameOverLeaderboardRequested, apply_ite NC.playerHealth,
    apply_ite NC.enemyHealth, apply_ite NC.scramblesRemaining]
  simp [updateAnimations_enemyHealth, updateAnimations_playerHealth, updateAnimations_score,
    updateAnimations_scramblesRemaining, updateAnimations_gameOverLeaderboardRequested, he,
    add_assoc]

/-- C10: if at the win/lose check of a single Playing-state tick both the
player and the enemy are at (or below) zero health, the lose branch fires
first (the leaderboard handling is invoked) but the win branch fires
afterwards, so the tick ends in ChooseUpgrade with the win bonuses
awarded. -/
theorem c10_simultaneous_death_prefers_win (st : NC) (dt : ℚ) (r : ℕ)
    (h1 : st.currentState = GState.playing) (h2 : st.isScrambling = false)
    (hna : st.enemyAttackTimer + dt < ENEMY_ATTACK_INTERVAL)
    (hp : st.playerHealth ≤ 0) (he : st.enemyHealth ≤ 0) :
    (update st dt r).currentState = GState.chooseUpgrade ∧
    (update st dt r).gameOverLeaderboardRequested = true ∧
    (update st dt r).lastHealthBonus =
      jsFloor ((st.score : ℚ) * ((st.playerHealth : ℚ) / (MAX_HEALTH : ℚ)) * (1/2)) ∧
    (update st dt r).score =
      st.score + (update st dt r).lastHealthBonus + (update st dt r).lastScrambleBonus := by
  obtain ⟨hc, hhb, hsb, hsc, hreq, -, -, -⟩ := update_win_branch st dt r h1 h2 hna he
  exact ⟨hc, by rw [hreq, if_pos hp], hhb, hsc⟩

/-- C1 (amended): when the enemy is at (or below) zero health on a
Playing-state tick, the health bonus `floor(score × (playerHealth / 120) ×
0.5)` — the divisor is the fixed base constant `MAX_HEALTH = 120`, not the
difficulty- or upgrade-adjusted maximum — and the scramble bonus
`scramblesRemaining × 50` are each added to the score exactly once, and the
state transitions to ChooseUpgrade; later ticks in ChooseUpgrade change
neither score nor the recorded bonuses nor the state. -/
theorem c1_amended_win_bonuses (st : NC) (dt : ℚ) (r : ℕ)
    (h1 : st.currentState = GState.playing) (h2 : st.isScrambling = false)
    (hna : st.enemyAttackTimer + dt < ENEMY_ATTACK_INTERVAL)
    (he : st.enemyHealth ≤ 0) :
    MAX_HEALTH = 120 ∧
    (update st dt r).currentState = GState.chooseUpgrade ∧
    (update st dt r).lastHealthBonus =
      jsFloor ((st.score : ℚ) * ((st.playerHealth : ℚ) / (MAX_HEALTH : ℚ)) * (1/2)) ∧
    (update st dt r).lastScrambleBonus = (st.scramblesRemaining : ℤ) * 50 ∧
    (update st dt r).score =
      st.score + (update st dt r).lastHealthBonus + (update st dt r).lastScrambleBonus ∧
    (∀ dt2 r2,
      (update (update st dt r) dt2 r2).score = (update st dt r).score ∧
      (update (update st dt r) dt2 r2).lastHealthBonus = (update st dt r).lastHealthBonus ∧
      (update (update st dt r) dt2 r2).lastScrambleBonus = (update st dt r).lastScrambleBonus ∧
      (update (update st dt r) dt2 r2).currentState = GState.chooseUpgrade) := by
  obtain ⟨hc, hhb, hsb, hsc, -, -, -, -⟩ := update_win_branch st dt r h1 h2 hna he
  refine ⟨rfl, hc, hhb, hsb, hsc, fun dt2 r2 => ?_⟩
  have hnp : (update st dt r).currentState ≠ GState.playing := by
    rw [hc]; simp
  rw [update_not_playing _ dt2 r2 hnp]
  exact ⟨updateAnimations_score _ _, updateAnimations_lastHealthBonus _ _,
    updateAnimations_lastScrambleBonus _ _, by rw [updateAnimations_currentState, hc]⟩

theorem reachable_c1s10 : Reachable c1s10 := by
  have hj : ∀ i, zeroJ i ≤ i := fun i => Nat.zero_le i
  have hg : ∀ y x, zeroRand y x ≤ 8 := fun _ _ => Nat.zero_le 8
  have h0 : Reachable c1s0 := Reachable.init zeroRand hg
  have h1 : Reachable c1s1 := Reachable.loadingDone h0 rfl
  have h2 : Reachable c1s2 := Reachable.mouseDown 200 250 zeroJ zeroRand hj hg h1
  have h3 : Reachable c1s3 := Reachable.mouseDown 200 230 zeroJ zeroRand hj hg h2
  have h4 : Reachable c1s4 := Reachable.mouseDown 200 430 zeroJ zeroRand hj hg h3
  have h5 : Reachable c1s5 := Reachable.mouseDown 200 180 zeroJ zeroRand hj hg h4
  have h6 : Reachable c1s6 :=
    Reachable.mouseUp (Reachable.mouseMove 380 20
      (Reachable.mouseDown 20 20 zeroJ zeroRand hj hg h5))
  have h7 : Reachable c1s7 :=
    Reachable.mouseUp (Reachable.mouseMove 380 60
      (Reachable.mouseDown 20 60 zeroJ zeroRand hj hg h6))
  have h8 : Reachable c1s8 :=
    Reachable.mouseUp (Reachable.mouseMove 380 100
      (Reachable.mouseDown 20 100 zeroJ zeroRand hj hg h7))
  have h9 : Reachable c1s9 :=
    Reachable.mouseUp (Reachable.mouseMove 380 140
      (Reachable.mouseDown 20 140 zeroJ zeroRand hj hg h8))
  exact Reachable.mouseUp (Reachable.mouseMove 380 180
    (Reachable.mouseDown 20 180 zeroJ zeroRand hj hg h9))

unseal Rat.mul Rat.add Rat.sub Rat.inv Rat.ofScientific in
/-- C1 (counterexample): a reachable Easy-difficulty Playing state with the
enemy at exactly 0, player at full health 150 and score 500.  The claim's
formula (divisor `playerMaxHealth` = 150 on Easy) predicts a health bonus
of 250, but the tick awards `floor(500 × 150/120 × 0.5) = 312`: the code
divides by the fixed constant `MAX_HEALTH = 120`, not the
difficulty-adjusted maximum. -/
theorem c1_counterexample :
    Reachable c1s10 ∧
    c1s10.currentState = GState.playing ∧
    c1s10.isScrambling = false ∧
    c1s10.settings.difficulty = Difficulty.easy ∧
    c1s10.healthBonus = 0 ∧
    c1s10.enemyHealth = 0 ∧
    c1s10.playerHealth = 150 ∧
    c1s10.score = 500 ∧
    claimedHealthBonus c1s10 = 250 ∧
    (update c1s10 1 0).currentState = GState.chooseUpgrade ∧
    (update c1s10 1 0).lastHealthBonus = 312 ∧
    (update c1s10 1 0).score = 500 + 312 + 150 ∧
    claimedHealthBonus c1s10 ≠ (update c1s10 1 0).lastHealthBonus :=
  ⟨reachable_c1s10, by decide, by decide, by decide, by decide, by decide, by decide,
   by decide, by decide, by decide, by decide, by decide, by decide⟩

theorem reachable_c6s9 : Reachable c6s9 := by
  have hj : ∀ i, zeroJ i ≤ i := fun i => Nat.zero_le i
  have hg : ∀ y x, zeroRand y x ≤ 8 := fun _ _ => Nat.zero_le 8
  have h0 : Reachable c1s0 := Reachable.init zeroRand hg
  have h1 : Reachable c1s1 := Reachable.loadingDone h0 rfl
  have h2 : Reachable c6s2 := Reachable.mouseDown 200 180 zeroJ zeroRand hj hg h1
  have h3 : Reachable c6s3 :=
    Reachable.mouseUp (Reachable.mouseMove 380 20
      (Reachable.mouseDown 20 20 zeroJ zeroRand hj hg h2))
  have h4 : Reachable c6s4 :=
    Reachable.mouseUp (Reachable.mouseMove 380 60
      (Reachable.mouseDown 20 60 zeroJ zeroRand hj hg h3))
  have h5 : Reachable c6s5 :=
    Reachable.mouseUp (Reachable.mouseMove 380 100
      (Reachable.mouseDown 20 100 zeroJ zeroRand hj hg h4))
  have h6 : Reachable c6s6 :=
    Reachable.mouseUp (Reachable.mouseMove 380 140
      (Reachable.mouseDown 20 140 zeroJ zeroRand hj hg h5))
  have h7 : Reachable c6s7 :=
    Reachable.mouseUp (Reachable.mouseMove 380 180
      (Reachable.mouseDown 20 180 zeroJ zeroRand hj hg h6))
  have h8 : Reachable c6s8 :=
    Reachable.tick 1 0 (by norm_num) (Nat.zero_le 1) h7
  exact Reachable.mouseDown 200 225 zeroJ zeroRand hj hg h8

set_option maxRecDepth 10000 in
unseal Rat.mul Rat.add Rat.sub Rat.inv Rat.ofScientific in
/-- C6 (counterexample): a reachable state (Normal game, one level won, one
health upgrade taken) in which `playerHealth = 125` exceeds the code's own
displayed player maximum health `floor(baseHealth × healthMultiplier) =
120`: the flat health-upgrade bonus raises current health above the maximum
the code computes, so `playerHealth ≤ playerMaxHealth` fails. -/
theorem c6_counterexample :
    Reachable c6s9 ∧
    c6s9.currentState = GState.playing ∧
    c6s9.healthBonus = 5 ∧
    c6s9.playerHealth = 125 ∧
    drawUIPlayerMaxHealth c6s9 = 120 ∧
    ¬ c6s9.playerHealth ≤ drawUIPlayerMaxHealth c6s9 :=
  ⟨reachable_c6s9, by decide, by decide, by decide, by decide, by decide⟩

/-! ## The health invariant (amended C6) -/

theorem jsRound_nonneg (q : ℚ) (h : 0 ≤ q) : 0 ≤ jsRound q := by
  rw [jsRound]
  exact Int.le_floor.mpr (by push_cast; linarith)

theorem hi_clearSelection {st : NC} (h : HealthInvariant st) :
    HealthInvariant (clearSelection st) := by
  simpa [HealthInvariant, clearSelection] using h

theorem hi_updateSelection {st : NC} (h : HealthInvariant st) :
    HealthInvariant (updateSelection st) := by
  simpa [HealthInvariant, updateSelection, clearSelection] using h

theorem hi_applyDifficultySettings (st : NC) (hhb : 0 ≤ st.healthBonus)
    (hdb : 0 ≤ st.damageBonus) : HealthInvariant (applyDifficultySettings st) := by
  have e360 : jsFloor ((ENEMY_MAX_HEALTH : ℚ) *
      ((EASY_DAMAGE_BASE : ℚ) / (NORMAL_DAMAGE_BASE : ℚ))) = 360 := by
    rw [jsFloor, show ((ENEMY_MAX_HEALTH : ℚ) *
      ((EASY_DAMAGE_BASE : ℚ) / (NORMAL_DAMAGE_BASE : ℚ))) = ((360 : ℤ) : ℚ) by
        norm_num [ENEMY_MAX_HEALTH, EASY_DAMAGE_BASE, NORMAL_DAMAGE_BASE],
      Int.floor_intCast]
  have e540 : jsFloor ((ENEMY_MAX_HEALTH : ℚ) *
      ((HARD_DAMAGE_BASE : ℚ) / (NORMAL_DAMAGE_BASE : ℚ))) = 540 := by
    rw [jsFloor, show ((ENEMY_MAX_HEALTH : ℚ) *
      ((HARD_DAMAGE_BASE : ℚ) / (NORMAL_DAMAGE_BASE : ℚ))) = ((540 : ℤ) : ℚ) by
        norm_num [ENEMY_MAX_HEALTH, HARD_DAMAGE_BASE, NORMAL_DAMAGE_BASE],
      Int.floor_intCast]
  cases hd : st.settings.difficulty <;>
    simp only [HealthInvariant, applyDifficultySettings, hd, jsFloor_intCast_add, e360, e540] <;>
    refine ⟨?_, ?_, ?_, ?_, hhb, hdb, ?_⟩ <;>
    (try simp only [EASY_HEALTH, MAX_HEALTH, HARD_HEALTH, ENEMY_MAX_HEALTH,
      EASY_DAMAGE_BASE, NORMAL_DAMAGE_BASE, HARD_DAMAGE_BASE]) <;>
    linarith

theorem hi_setCurrentState {st : NC} (s : GState) (h : HealthInvariant st) :
    HealthInvariant { st with currentState := s } := by
  simpa [HealthInvariant] using h

theorem hi_setGrid {st : NC} (g : List (List GameCell)) (h : HealthInvariant st) :
    HealthInvariant { st with grid := g } := by
  simpa [HealthInvariant] using h

theorem hi_setGridState {st : NC} (g : List (List GameCell)) (s : GState)
    (h : HealthInvariant st) :
    HealthInvariant { st with grid := g, currentState := s } := by
  simpa [HealthInvariant] using h

theorem hi_startGame (st : NC) (rand : ℕ → ℕ → ℕ) :
    HealthInvariant (startGame st rand) := by
  simp only [startGame]
  apply hi_setCurrentState
  apply hi_applyDifficultySettings <;> simp [clearSelection]

theorem hi_nextLevel (st : NC) (rand : ℕ → ℕ → ℕ) (hhb : 0 ≤ st.healthBonus)
    (hdb : 0 ≤ st.damageBonus) : HealthInvariant (nextLevel st rand) := by
  simp only [nextLevel]
  apply hi_setGridState
  apply hi_applyDifficultySettings <;> simpa

theorem hi_gameOverReset (st : NC) (rand : ℕ → ℕ → ℕ) (hdb : 0 ≤ st.damageBase) :
    HealthInvariant (gameOverReset st rand) := by
  simp only [gameOverReset, HealthInvariant]
  refine ⟨?_, ?_, ?_, ?_, ?_, ?_, by simpa using hdb⟩ <;>
    simp [MAX_HEALTH, ENEMY_MAX_HEALTH, EASY_HEALTH]

theorem hi_restartGame {st : NC} (rand : ℕ → ℕ → ℕ) (h : HealthInvariant st) :
    HealthInvariant (restartGame st rand) := by
  simp only [restartGame]
  exact hi_setCurrentState _ (hi_gameOverReset st rand h.2.2.2.2.2.2)

theorem hi_scrambleBoard {st : NC} (jChoice : ℕ → ℕ) (h : HealthInvariant st) :
    HealthInvariant (scrambleBoard st jChoice) := by
  rw [scrambleBoard]
  split
  · exact h
  · simpa [HealthInvariant] using h

theorem hi_triggerAttackAnimation {st : NC} (h : HealthInvariant st) :
    HealthInvariant (triggerAttackAnimation st) := by
  rw [triggerAttackAnimation]
  split
  · simpa [HealthInvariant] using h
  · exact h

theorem hi_processMatch {st : NC} (h : HealthInvariant st) :
    HealthInvariant (processMatch st) := by
  obtain ⟨h1, h2, h3, h4, h5, h6, h7⟩ := h
  apply hi_clearSelection
  apply hi_triggerAttackAnimation
  have hdmg : 0 ≤ jsRound
      ((((((spanIncl (min st.selectionStartY st.selectionEndY)
            (max st.selectionStartY st.selectionEndY)).map (fun y =>
        ((spanIncl (min st.selectionStartX st.selectionEndX)
            (max st.selectionStartX st.selectionEndX)).filter
          (fun x => (cellAt st.grid y x).value ≠ 0)).length)).sum : ℕ) : ℚ))
        * ((st.damageBase : ℚ) + st.damageBonus)) := by
    apply jsRound_nonneg
    apply mul_nonneg (by positivity)
    have : (0 : ℚ) ≤ (st.damageBase : ℚ) := by exact_mod_cast h7
    linarith
  simp only [processMatch, HealthInvariant]
  refine ⟨h1, h2, le_max_left _ _, ?_, h5, h6, h7⟩
  exact max_le (by norm_num) (by linarith [sub_le_self st.enemyHealth hdmg])

theorem hi_onMouseUp {st : NC} (h : HealthInvariant st) :
    HealthInvariant (onMouseUp st) := by
  have hdrag : HealthInvariant
      ({ st with isDraggingBGM := false, isDraggingSFX := false } : NC) := by
    simpa [HealthInvariant] using h
  simp only [onMouseUp]
  split
  · exact hdrag
  · split
    · exact hdrag
    · split
      · exact hi_processMatch (by simpa [HealthInvariant] using h)
      · exact hi_clearSelection (by simpa [HealthInvariant] using h)

theorem hi_onMouseMove {st : NC} (x y : ℚ) (h : HealthInvariant st) :
    HealthInvariant (onMouseMove st x y) := by
  simp only [onMouseMove]
  split
  · split
    · simpa [HealthInvariant] using h
    · split
      · simpa [HealthInvariant] using h
      · exact h
  · split
    · exact h
    · split
      · exact hi_updateSelection (by simpa [HealthInvariant] using h)
      · exact h

theorem hi_handleMenuClick {st : NC} (x y : ℚ) (rand : ℕ → ℕ → ℕ)
    (h : HealthInvariant st) : HealthInvariant (handleMenuClick st x y rand) := by
  rw [handleMenuClick]
  split
  · exact hi_startGame st rand
  · split
    · exact hi_setCurrentState _ h
    · split
      · exact hi_setCurrentState _ h
      · exact h

theorem hi_handleGameClick {st : NC} (x y : ℚ) (jChoice : ℕ → ℕ)
    (h : HealthInvariant st) : HealthInvariant (handleGameClick st x y jChoice) := by
  simp only [handleGameClick]
  split
  · exact h
  · split
    · exact hi_scrambleBoard jChoice h
    · split
      · exact hi_updateSelection (by simpa [HealthInvariant] using h)
      · exact h

theorem hi_handleOptionsClick {st : NC} (x y : ℚ) (h : HealthInvariant st) :
    HealthInvariant (handleOptionsClick st x y) := by
  rw [handleOptionsClick]
  split
  · simpa [HealthInvariant] using h
  · split
    · simpa [HealthInvariant] using h
    · split
      · simpa [HealthInvariant] using h
      · split
        · simpa [HealthInvariant] using h
        · split
          · simpa [HealthInvariant] using h
          · split
            · exact hi_setCurrentState _ h
            · exact h

theorem hi_handleGameOverClick {st : NC} (x y : ℚ) (rand : ℕ → ℕ → ℕ)
    (h : HealthInvariant st) : HealthInvariant (handleGameOverClick st x y rand) := by
  rw [handleGameOverClick]
  split
  · exact hi_startGame st rand
  · split
    · exact hi_setCurrentState _ h
    · exact h

theorem hi_handleChooseUpgradeClick {st : NC} (x y : ℚ) (rand : ℕ → ℕ → ℕ)
    (h : HealthInvariant st) : HealthInvariant (handleChooseUpgradeClick st x y rand) := by
  obtain ⟨h1, h2, h3, h4, h5, h6, h7⟩ := h
  rw [handleChooseUpgradeClick]
  split
  · apply hi_nextLevel <;> simp [HEALTH_UPGRADE_BONUS] <;> linarith
  · split
    · apply hi_nextLevel <;> simp [DAMAGE_UPGRADE_BONUS] <;> linarith
    · exact ⟨h1, h2, h3, h4, h5, h6, h7⟩

theorem hi_handleLeaderboardClick {st : NC} (x y : ℚ) (h : HealthInvariant st) :
    HealthInvariant (handleLeaderboardClick st x y) := by
  rw [handleLeaderboardClick]
  split
  · exact hi_setCurrentState _ h
  · exact h

theorem hi_handleLeaderboardNameInputClick {st : NC} (x y : ℚ) (h : HealthInvariant st) :
    HealthInvariant (handleLeaderboardNameInputClick st x y) := by
  rw [handleLeaderboardNameInputClick]
  split
  · exact h
  · split
    · exact hi_setCurrentState _ h
    · split
      · exact hi_setCurrentState _ h
      · exact h

theorem hi_onMouseDown {st : NC} (x y : ℚ) (jChoice : ℕ → ℕ) (rand : ℕ → ℕ → ℕ)
    (h : HealthInvariant st) : HealthInvariant (onMouseDown st x y jChoice rand) := by
  rw [onMouseDown]
  cases st.currentState
  · exact h
  · exact hi_handleMenuClick x y rand h
  · exact hi_handleGameClick x y jChoice h
  · exact hi_handleOptionsClick x y h
  · exact hi_handleGameOverClick x y rand h
  · exact hi_handleChooseUpgradeClick x y rand h
  · exact hi_handleLeaderboardClick x y h
  · exact hi_handleLeaderboardNameInputClick x y h

set_option maxHeartbeats 1000000 in
/-- `update` never touches the enemy health. -/
theorem update_enemyHealth (st : NC) (dt : ℚ) (r : ℕ) :
    (update st dt r).enemyHealth = st.enemyHealth := by
  simp only [update, finishScrambling]
  split_ifs <;> simp [updateAnimations_enemyHealth]

set_option maxHeartbeats 1000000 in
/-- `update` never touches the flat health bonus. -/
theorem update_healthBonus (st : NC) (dt : ℚ) (r : ℕ) :
    (update st dt r).healthBonus = st.healthBonus := by
  simp only [update, finishScrambling]
  split_ifs <;> simp [updateAnimations_healthBonus]

set_option maxHeartbeats 1000000 in
/-- `update` never touches the flat damage bonus. -/
theorem update_damageBonus (st : NC) (dt : ℚ) (r : ℕ) :
    (update st dt r).damageBonus = st.damageBonus := by
  simp only [update, finishScrambling]
  split_ifs <;> simp [updateAnimations_damageBonus]

set_option maxHeartbeats 1000000 in
/-- `update` never touches the per-tile damage base. -/
theorem update_damageBase (st : NC) (dt : ℚ) (r : ℕ) :
    (update st dt r).damageBase = st.damageBase := by
  simp only [update, finishScrambling]
  split_ifs <;> simp [updateAnimations_damageBase]

set_option maxHeartbeats 1000000 in
/-- `update` either leaves the player's health alone or applies the clamped
fixed attack damage. -/
theorem update_playerHealth_cases (st : NC) (dt : ℚ) (r : ℕ) :
    (update st dt r).playerHealth = st.playerHealth ∨
    (update st dt r).playerHealth = max 0 (st.playerHealth - ENEMY_ATTACK_DAMAGE) := by
  simp only [update, finishScrambling]
  split_ifs <;> simp [updateAnimations_playerHealth, jsRound_intCast]

theorem hi_update {st : NC} (dt : ℚ) (r : ℕ) (h : HealthInvariant st) :
    HealthInvariant (update st dt r) := by
  obtain ⟨h1, h2, h3, h4, h5, h6, h7⟩ := h
  refine ⟨?_, ?_, ?_, ?_, ?_, ?_, ?_⟩
  · rcases update_playerHealth_cases st dt r with e | e <;> rw [e]
    · exact h1
    · exact le_max_left _ _
  · rcases update_playerHealth_cases st dt r with e | e <;>
      rw [e, update_healthBonus]
    · exact h2
    · have hd : (0 : ℤ) ≤ ENEMY_ATTACK_DAMAGE := by norm_num [ENEMY_ATTACK_DAMAGE]
      have he : (0 : ℤ) ≤ EASY_HEALTH := by norm_num [EASY_HEALTH]
      exact max_le (by linarith) (by linarith)
  · rw [update_enemyHealth]; exact h3
  · rw [update_enemyHealth]; exact h4
  · rw [update_healthBonus]; exact h5
  · rw [update_damageBonus]; exact h6
  · rw [update_damageBase]; exact h7

theorem reachable_healthInvariant {st : NC} (h : Reachable st) : HealthInvariant st := by
  induction h with
  | init rand hg =>
    refine ⟨?_, ?_, ?_, ?_, ?_, ?_, ?_⟩ <;>
      simp [initialNC, MAX_HEALTH, ENEMY_MAX_HEALTH, EASY_HEALTH, NORMAL_DAMAGE_BASE]
  | tick dt r hdt hr hst ih => exact hi_update dt r ih
  | assetLoaded k hst ih => simpa [HealthInvariant, markAssetLoaded] using ih
  | loadingDone hst hload ih => simpa [HealthInvariant] using ih
  | mouseDown x y jChoice rand hj hg hst ih => exact hi_onMouseDown x y jChoice rand ih
  | mouseMove x y hst ih => exact hi_onMouseMove x y ih
  | mouseUp hst ih => exact hi_onMouseUp ih
  | namePopup hst hflag ih => simpa [HealthInvariant] using ih
  | restart rand hg hst ih => exact hi_restartGame rand ih

/-- C6 (amended): on every reachable state both health values are
non-negative; the player's health is bounded by the largest difficulty base
(150) plus the accumulated flat health bonus — not by the displayed
`playerMaxHealth`, which a health upgrade exceeds — and the enemy's health
is bounded by the Hard-difficulty maximum 540. -/
theorem c6_amended_health_bounds (st : NC) (h : Reachable st) :
    0 ≤ st.playerHealth ∧ st.playerHealth ≤ EASY_HEALTH + st.healthBonus ∧
    0 ≤ st.enemyHealth ∧ st.enemyHealth ≤ 540 := by
  obtain ⟨a, b, c, d, -, -, -⟩ := reachable_healthInvariant h
  exact ⟨a, b, c, d⟩

theorem c6_amended_health_bounds_witness :
    Reachable (initialNC zeroRand) ∧
    (0 ≤ (initialNC zeroRand).playerHealth ∧
     (initialNC zeroRand).playerHealth ≤ EASY_HEALTH + (initialNC zeroRand).healthBonus ∧
     0 ≤ (initialNC zeroRand).enemyHealth ∧ (initialNC zeroRand).enemyHealth ≤ 540) :=
  have hreach : Reachable (initialNC zeroRand) :=
    Reachable.init zeroRand (fun _ _ => Nat.zero_le 8)
  ⟨hreach, c6_amended_health_bounds _ hreach⟩

/-! ## Grid access lemmas (for the match-resolution claims) -/

theorem mapIdxFrom_length (f : ℕ → α → β) : ∀ (i : ℕ) (l : List α),
    (mapIdxFrom f i l).length = l.length
  | _, [] => rfl
  | i, _ :: as => by simp [mapIdxFrom, mapIdxFrom_length f (i + 1) as]

theorem mapIdxFrom_getD (f : ℕ → α → β) (d : α) (e : β) :
    ∀ (i k : ℕ) (l : List α), k < l.length →
      (mapIdxFrom f i l).getD k e = f (i + k) (l.getD k d)
  | _, _, [], h => absurd h (by simp)
  | _, 0, _ :: _, _ => by simp [mapIdxFrom]
  | i, k + 1, a :: as, h => by
    simp only [mapIdxFrom, List.getD_cons_succ]
    rw [mapIdxFrom_getD f d e (i + 1) k as (by simpa using h)]
    congr 1
    omega

/-- Pointwise description of `mapGridIdx` on in-range coordinates. -/
theorem cellAt_mapGridIdx (f : ℕ → ℕ → GameCell → GameCell) (g : List (List GameCell))
    (y x : ℕ) (hy : y < g.length) (hx : x < (g.getD y []).length) :
    cellAt (mapGridIdx f g) y x = f y x (cellAt g y x) := by
  unfold cellAt mapGridIdx
  rw [mapIdxFrom_getD _ [] [] 0 y g hy, Nat.zero_add,
    mapIdxFrom_getD _ defaultCell defaultCell 0 x _ hx, Nat.zero_add]

/-- Unselecting preserves every cell value (also at out-of-range indices,
where both sides give the default cell). -/
theorem value_map_unselect : ∀ (row : List GameCell) (x : ℕ),
    ((row.map (fun c => { c with selected := false })).getD x defaultCell).value
      = (row.getD x defaultCell).value
  | [], _ => rfl
  | _ :: _, 0 => rfl
  | _ :: cs, x + 1 => by
    simp only [List.map_cons, List.getD_cons_succ]
    exact value_map_unselect cs x

theorem selected_map_unselect : ∀ (row : List GameCell) (x : ℕ), x < row.length →
    ((row.map (fun c => { c with selected := false })).getD x defaultCell).selected = false
  | [], _, h => absurd h (by simp)
  | _ :: _, 0, _ => rfl
  | _ :: cs, x + 1, h => by
    simp only [List.map_cons, List.getD_cons_succ]
    exact selected_map_unselect cs x (by simpa using h)

theorem cellAt_unselect_value : ∀ (g : List (List GameCell)) (y x : ℕ),
    (cellAt (g.map (fun row => row.map (fun c => { c with selected := false }))) y x).value
      = (cellAt g y x).value
  | [], _, _ => rfl
  | row :: _, 0, x => value_map_unselect row x
  | _ :: rows, y + 1, x => by
    simp only [cellAt, List.map_cons, List.getD_cons_succ]
    exact cellAt_unselect_value rows y x

theorem cellAt_unselect_selected : ∀ (g : List (List GameCell)) (y x : ℕ),
    y < g.length → x < (g.getD y []).length →
    (cellAt (g.map (fun row => row.map (fun c => { c with selected := false }))) y x).selected
      = false
  | [], _, _, hy, _ => absurd hy (by simp)
  | row :: _, 0, x, _, hx => selected_map_unselect row x (by simpa using hx)
  | _ :: rows, y + 1, x, hy, hx => by
    simp only [cellAt, List.map_cons, List.getD_cons_succ]
    exact cellAt_unselect_selected rows y x (by simpa using hy) (by simpa using hx)

/-- On release in the Playing state with a matching sum, `onMouseUp` is
exactly `processMatch` on the state with the transient flags cleared. -/
theorem onMouseUp_match_eq (st : NC) (h1 : st.currentState = GState.playing)
    (h2 : st.isSelecting = true) (h3 : st.selectedSum = st.targetNumber) :
    onMouseUp st = processMatch
      { st with isDraggingBGM := false, isDraggingSFX := false, isSelecting := false } := by
  simp only [onMouseUp]
  rw [if_neg (by simp [h1]), if_neg (by simp [h2]), if_pos (by simpa using h3)]

/-- On release in the Playing state with a non-matching sum, `onMouseUp` is
exactly `clearSelection` on the state with the transient flags cleared. -/
theorem onMouseUp_nomatch_eq (st : NC) (h1 : st.currentState = GState.playing)
    (h2 : st.isSelecting = true) (h3 : st.selectedSum ≠ st.targetNumber) :
    onMouseUp st = clearSelection
      { st with isDraggingBGM := false, isDraggingSFX := false, isSelecting := false } := by
  simp only [onMouseUp]
  rw [if_neg (by simp [h1]), if_neg (by simp [h2]), if_neg (by simpa using h3)]

/-- C2: on selection release in the Playing state with the selected sum
equal to the target, the rectangle is normalized via min/max, every cell of
the inclusive rectangle becomes 0, the score grows by
`tilesWithValue × 10 + emptyTiles × 1` (counted on the pre-clear grid), and
the enemy's health becomes
`max 0 (enemyHealth − round(tilesWithValue × (damageBase + damageBonus)))`. -/
theorem c2_match_resolution (st : NC) (h1 : st.currentState = GState.playing)
    (h2 : st.isSelecting = true) (h3 : st.selectedSum = st.targetNumber) :
    (∀ y x, y < st.grid.length → x < (st.grid.getD y []).length →
      min st.selectionStartY st.selectionEndY ≤ y →
      y ≤ max st.selectionStartY st.selectionEndY →
      min st.selectionStartX st.selectionEndX ≤ x →
      x ≤ max st.selectionStartX st.selectionEndX →
      (cellAt (onMouseUp st).grid y x).value = 0) ∧
    (onMouseUp st).score = st.score +
      ((((spanIncl (min st.selectionStartY st.selectionEndY)
            (max st.selectionStartY st.selectionEndY)).map (fun y =>
          ((spanIncl (min st.selectionStartX st.selectionEndX)
              (max st.selectionStartX st.selectionEndX)).filter
            (fun x => (cellAt st.grid y x).value ≠ 0)).length)).sum) * POINTS_PER_TILE +
        ((max st.selectionStartX st.selectionEndX - min st.selectionStartX st.selectionEndX + 1) *
         (max st.selectionStartY st.selectionEndY - min st.selectionStartY st.selectionEndY + 1) -
         ((spanIncl (min st.selectionStartY st.selectionEndY)
            (max st.selectionStartY st.selectionEndY)).map (fun y =>
          ((spanIncl (min st.selectionStartX st.selectionEndX)
              (max st.selectionStartX st.selectionEndX)).filter
            (fun x => (cellAt st.grid y x).value ≠ 0)).length)).sum) * 1 : ℕ) ∧
    (onMouseUp st).enemyHealth = max 0 (st.enemyHealth -
      jsRound (((((spanIncl (min st.selectionStartY st.selectionEndY)
            (max st.selectionStartY st.selectionEndY)).map (fun y =>
          ((spanIncl (min st.selectionStartX st.selectionEndX)
              (max st.selectionStartX st.selectionEndX)).filter
            (fun x => (cellAt st.grid y x).value ≠ 0)).length)).sum : ℕ) : ℚ) *
        ((st.damageBase : ℚ) + st.damageBonus))) := by
  rw [onMouseUp_match_eq st h1 h2 h3]
  refine ⟨?_, ?_, ?_⟩
  · intro y x hy hx hsy hey hsx hex
    have hgrid : (processMatch
        { st with isDraggingBGM := false, isDraggingSFX := false, isSelecting := false }).grid =
        (mapGridIdx (fun y2 x2 c =>
          if min st.selectionStartY st.selectionEndY ≤ y2 ∧
             y2 ≤ max st.selectionStartY st.selectionEndY ∧
             min st.selectionStartX st.selectionEndX ≤ x2 ∧
             x2 ≤ max st.selectionStartX st.selectionEndX
          then { c with value := 0 } else c) st.grid).map
          (fun row => row.map (fun c => { c with selected := false })) := by
      simp [processMatch, clearSelection, triggerAttackAnimation, apply_ite NC.grid]
    rw [hgrid, cellAt_unselect_value, cellAt_mapGridIdx _ _ _ _ hy hx,
      if_pos ⟨hsy, hey, hsx, hex⟩]
  · simp [processMatch, clearSelection, triggerAttackAnimation, apply_ite NC.score]
  · simp [processMatch, clearSelection, triggerAttackAnimation, apply_ite NC.enemyHealth]

/-- C8: on selection release in the Playing state with a non-matching sum,
no cell value changes, every cell's selected flag is cleared, `selectedSum`
resets to 0, and score, health values and combat timers are untouched. -/
theorem c8_no_match_clears_selection_only (st : NC) (h1 : st.currentState = GState.playing)
    (h2 : st.isSelecting = true) (h3 : st.selectedSum ≠ st.targetNumber) :
    (∀ y x, (cellAt (onMouseUp st).grid y x).value = (cellAt st.grid y x).value) ∧
    (∀ y x, y < st.grid.length → x < (st.grid.getD y []).length →
      (cellAt (onMouseUp st).grid y x).selected = false) ∧
    (onMouseUp st).selectedSum = 0 ∧
    (onMouseUp st).isSelecting = false ∧
    (onMouseUp st).score = st.score ∧
    (onMouseUp st).playerHealth = st.playerHealth ∧
    (onMouseUp st).enemyHealth = st.enemyHealth ∧
    (onMouseUp st).enemyAttackTimer = st.enemyAttackTimer ∧
    (onMouseUp st).scrambleTimer = st.scrambleTimer ∧
    (onMouseUp st).targetNumber = st.targetNumber := by
  rw [onMouseUp_nomatch_eq st h1 h2 h3]
  refine ⟨?_, ?_, ?_, ?_, ?_, ?_, ?_, ?_, ?_, ?_⟩
  · intro y x
    have : (clearSelection
        { st with isDraggingBGM := false, isDraggingSFX := false, isSelecting := false }).grid =
        st.grid.map (fun row => row.map (fun c => { c with selected := false })) := by
      simp [clearSelection]
    rw [this, cellAt_unselect_value]
  · intro y x hy hx
    have : (clearSelection
        { st with isDraggingBGM := false, isDraggingSFX := false, isSelecting := false }).grid =
        st.grid.map (fun row => row.map (fun c => { c with selected := false })) := by
      simp [clearSelection]
    rw [this]
    exact cellAt_unselect_selected st.grid y x hy hx
  all_goals simp [clearSelection]

/-! ## Fisher–Yates permutation lemmas -/

theorem set_get_self : ∀ (l : List α) (i : ℕ) (h : i < l.length),
    l.set i (l.get ⟨i, h⟩) = l
  | _ :: _, 0, _ => rfl
  | a :: as, i + 1, h => by
    simp only [List.get_cons_succ, List.set_cons_succ]
    rw [set_get_self as i (by simpa using h)]

/-- Moving the `m`-th element to the front while writing `a` into its slot
is a permutation of putting `a` in front. -/
theorem get_cons_set_perm : ∀ (t : List α) (m : ℕ) (a : α) (h : m < t.length),
    (t.get ⟨m, h⟩ :: t.set m a).Perm (a :: t)
  | b :: s, 0, a, _ => List.Perm.swap a b s
  | b :: s, m + 1, a, h => by
    simp only [List.get_cons_succ, List.set_cons_succ]
    refine (List.Perm.swap b _ _).trans ?_
    exact ((get_cons_set_perm s m a (by simpa using h)).cons b).trans (List.Perm.swap a b s)

/-- Swapping two in-range entries permutes the list. -/
theorem set_set_swap_perm : ∀ (l : List α) (i j : ℕ) (hi : i < l.length)
    (hj : j < l.length), ((l.set i (l.get ⟨j, hj⟩)).set j (l.get ⟨i, hi⟩)).Perm l
  | _ :: _, 0, 0, _, _ => by
    simp only [List.get_cons_zero, List.set_cons_zero]
    exact List.Perm.refl _
  | a :: t, 0, m + 1, _, hj => by
    simp only [List.get_cons_zero, List.get_cons_succ, List.set_cons_zero, List.set_cons_succ]
    exact get_cons_set_perm t m a (by simpa using hj)
  | a :: t, k + 1, 0, hi, _ => by
    simp only [List.get_cons_zero, List.get_cons_succ, List.set_cons_zero, List.set_cons_succ]
    exact get_cons_set_perm t k a (by simpa using hi)
  | a :: t, k + 1, m + 1, hi, hj => by
    simp only [List.get_cons_succ, List.set_cons_succ]
    exact (set_set_swap_perm t k m (by simpa using hi) (by simpa using hj)).cons a

theorem listSwap_perm (l : List α) (i j : ℕ) : (listSwap l i j).Perm l := by
  rw [listSwap]
  split
  · split
    · exact set_set_swap_perm l i j (by assumption) (by assumption)
    · exact List.Perm.refl l
  · exact List.Perm.refl l

theorem fyLoop_perm (jChoice : ℕ → ℕ) : ∀ (l : List ℕ) (i : ℕ), (fyLoop jChoice l i).Perm l
  | _, 0 => List.Perm.refl _
  | l, i + 1 =>
    (fyLoop_perm jChoice (listSwap l (i + 1) (jChoice (i + 1))) i).trans
      (listSwap_perm l (i + 1) (jChoice (i + 1)))

theorem shuffledIndices_perm (jChoice : ℕ → ℕ) (n : ℕ) :
    (shuffledIndices jChoice n).Perm (List.range n) :=
  fyLoop_perm jChoice (List.range n) (n - 1)

theorem getD_range_map : ∀ (l : List α) (d : α),
    (List.range l.length).map (fun k => l.getD k d) = l
  | [], _ => rfl
  | a :: as, d => by
    rw [List.length_cons, List.range_succ_eq_map, List.map_cons, List.map_map]
    simp only [List.getD_cons_zero, Function.comp]
    congr 1
    exact getD_range_map as d

/-! ## The scramble assignment walk -/

theorem countNZ_cons (c : GameCell) (cs : List GameCell) :
    countNZ (c :: cs) = if c.value ≠ 0 then countNZ cs + 1 else countNZ cs := by
  by_cases hc : c.value = 0 <;> simp [countNZ, List.filter_cons, hc]

theorem nzVals_cons (c : GameCell) (cs : List GameCell) :
    nzVals (c :: cs) = if c.value ≠ 0 then c.value :: nzVals cs else nzVals cs := by
  by_cases hc : c.value = 0 <;> simp [nzVals, List.filter_cons, hc]

theorem scrambleRowGo_srcRemainder :
    ∀ (y x : ℕ) (row : List GameCell) (src : List SourceCell),
      (scrambleRowGo y x row src).2.1 = src.drop (countNZ row)
  | _, _, [], src => by simp [scrambleRowGo, countNZ]
  | y, x, c :: cs, src => by
    by_cases hc : c.value = 0
    · simp only [scrambleRowGo]
      rw [if_neg (by simp [hc]), countNZ_cons, if_neg (by simp [hc])]
      exact scrambleRowGo_srcRemainder y (x + 1) cs src
    · simp only [scrambleRowGo]
      rw [if_pos (by simp [hc]), countNZ_cons, if_pos (by simp [hc])]
      cases src with
      | nil =>
        simp only []
        rw [scrambleRowGo_srcRemainder y (x + 1) cs []]
        simp
      | cons s stail =>
        simp only []
        rw [scrambleRowGo_srcRemainder y (x + 1) cs stail, List.drop_succ_cons]

theorem scrambleRowGo_nzVals :
    ∀ (y x : ℕ) (row : List GameCell) (src : List SourceCell),
      countNZ row ≤ src.length →
      (∀ s ∈ src.take (countNZ row), s.value ≠ 0) →
      nzVals (scrambleRowGo y x row src).1 = (src.take (countNZ row)).map (fun s => s.value)
  | _, _, [], src, _, _ => by simp [scrambleRowGo, countNZ, nzVals]
  | y, x, c :: cs, src, hlen, hnz => by
    by_cases hc : c.value = 0
    · simp only [scrambleRowGo]
      rw [if_neg (by simp [hc])]
      rw [countNZ_cons, if_neg (by simp [hc])] at hlen hnz ⊢
      rw [nzVals_cons, if_neg (by simp [hc])]
      exact scrambleRowGo_nzVals y (x + 1) cs src hlen hnz
    · simp only [scrambleRowGo]
      rw [if_pos (by simp [hc])]
      rw [countNZ_cons, if_pos (by simp [hc])] at hlen hnz ⊢
      cases src with
      | nil => simp at hlen
      | cons s stail =>
        have hsv : s.value ≠ 0 := hnz s (by simp [List.take_succ_cons])
        simp only []
        rw [nzVals_cons, if_pos (by simpa using hsv)]
        rw [List.take_succ_cons, List.map_cons]
        congr 1
        exact scrambleRowGo_nzVals y (x + 1) cs stail (by simpa using hlen)
          (fun s2 hs2 => hnz s2 (by simp [List.take_succ_cons, hs2]))

theorem scrambleRowGo_zero :
    ∀ (y x : ℕ) (row : List GameCell) (src : List SourceCell) (idx : ℕ),
      (row.getD idx defaultCell).value = 0 →
      (scrambleRowGo y x row src).1.getD idx defaultCell = row.getD idx defaultCell
  | _, _, [], src, idx, _ => by simp [scrambleRowGo]
  | y, x, c :: cs, src, 0, h0 => by
    have hc : c.value = 0 := by simpa using h0
    simp only [scrambleRowGo]
    rw [if_neg (by simp [hc])]
    simp
  | y, x, c :: cs, src, idx + 1, h => by
    by_cases hc : c.value = 0
    · simp only [scrambleRowGo]
      rw [if_neg (by simp [hc])]
      simpa using scrambleRowGo_zero y (x + 1) cs src idx (by simpa using h)
    · simp only [scrambleRowGo]
      rw [if_pos (by simp [hc])]
      cases src with
      | nil =>
        simpa using scrambleRowGo_zero y (x + 1) cs [] idx (by simpa using h)
      | cons s stail =>
        simpa using scrambleRowGo_zero y (x + 1) cs stail idx (by simpa using h)

theorem gridCountNZ_cons (row : List GameCell) (rows : List (List GameCell)) :
    gridCountNZ (row :: rows) = countNZ row + gridCountNZ rows := by
  simp [gridCountNZ]

theorem gridNonZeroValues_cons (row : List GameCell) (rows : List (List GameCell)) :
    gridNonZeroValues (row :: rows) = nzVals row ++ gridNonZeroValues rows := by
  simp [gridNonZeroValues, nzVals, List.filter_append]

theorem scrambleRows_srcRemainder :
    ∀ (y : ℕ) (g : List (List GameCell)) (src : List SourceCell),
      (scrambleRows y g src).2.1 = src.drop (gridCountNZ g)
  | _, [], src => by simp [scrambleRows, gridCountNZ]
  | y, row :: rows, src => by
    rw [scrambleRows]
    simp only []
    rw [scrambleRows_srcRemainder (y + 1) rows _, scrambleRowGo_srcRemainder,
      List.drop_drop, gridCountNZ_cons, Nat.add_comm]

theorem scrambleRows_nzVals :
    ∀ (y : ℕ) (g : List (List GameCell)) (src : List SourceCell),
      gridCountNZ g ≤ src.length →
      (∀ s ∈ src.take (gridCountNZ g), s.value ≠ 0) →
      gridNonZeroValues (scrambleRows y g src).1 =
        (src.take (gridCountNZ g)).map (fun s => s.value)
  | _, [], src, _, _ => by simp [scrambleRows, gridNonZeroValues, gridCountNZ]
  | y, row :: rows, src, hlen, hnz => by
    rw [gridCountNZ_cons] at hlen hnz ⊢
    rw [scrambleRows]
    simp only []
    rw [gridNonZeroValues_cons]
    rw [scrambleRowGo_nzVals y 0 row src (by omega)
      (fun s hs => hnz s (by rw [List.take_add]; exact List.mem_append_left _ hs))]
    rw [scrambleRowGo_srcRemainder]
    rw [scrambleRows_nzVals (y + 1) rows (src.drop (countNZ row))
      (by simp [List.length_drop]; omega)
      (fun s hs => hnz s (by rw [List.take_add]; exact List.mem_append_right _ hs))]
    rw [List.take_add, List.map_append]

theorem scrambleRows_zero :
    ∀ (y : ℕ) (g : List (List GameCell)) (src : List SourceCell) (yy xx : ℕ),
      (cellAt g yy xx).value = 0 →
      cellAt (scrambleRows y g src).1 yy xx = cellAt g yy xx
  | _, [], src, yy, xx, _ => by simp [scrambleRows]
  | y, row :: rows, src, 0, xx, h => by
    rw [scrambleRows]
    simp only [cellAt, List.getD_cons_zero] at h ⊢
    exact scrambleRowGo_zero y 0 row src xx h
  | y, row :: rows, src, yy + 1, xx, h => by
    rw [scrambleRows]
    simp only [cellAt, List.getD_cons_succ] at h ⊢
    exact scrambleRows_zero (y + 1) rows _ yy xx h

theorem gridNonZeroValues_length (g : List (List GameCell)) :
    (gridNonZeroValues g).length = gridCountNZ g := by
  induction g with
  | nil => simp [gridNonZeroValues, gridCountNZ]
  | cons row rows ih =>
    rw [gridNonZeroValues_cons, gridCountNZ_cons, List.length_append, ih]
    simp [nzVals, countNZ]

theorem collect_row_values (y : ℕ) :
    ∀ (i : ℕ) (row : List GameCell),
      ((mapIdxFrom (fun x c => ({ x := x, y := y, value := c.value } : SourceCell)) i
          row).filter (fun s => s.value ≠ 0)).map (fun s => s.value) = nzVals row
  | _, [] => rfl
  | i, c :: cs => by
    by_cases hc : c.value = 0 <;>
      rw [mapIdxFrom, nzVals_cons] <;>
      simp only [List.filter_cons]
    · rw [if_neg (by simp [hc]), if_neg (by simp [hc])]
      exact collect_row_values y (i + 1) cs
    · rw [if_pos (by simp [hc]), if_pos (by simp [hc]), List.map_cons]
      congr 1
      exact collect_row_values y (i + 1) cs

theorem collectNonZero_values_aux :
    ∀ (i : ℕ) (g : List (List GameCell)),
      (((mapIdxFrom (fun y row =>
          mapIdxFrom (fun x c => ({ x := x, y := y, value := c.value } : SourceCell)) 0 row)
          i g).flatten.filter (fun s => s.value ≠ 0)).map (fun s => s.value)) =
        gridNonZeroValues g
  | _, [] => rfl
  | i, row :: rows => by
    rw [mapIdxFrom, List.flatten_cons, List.filter_append, List.map_append,
      gridNonZeroValues_cons, collect_row_values, collectNonZero_values_aux (i + 1) rows]

/-- The pool's values, in order, are the grid's non-zero values in
row-major order. -/
theorem collectNonZero_values (g : List (List GameCell)) :
    (collectNonZero g).map (fun s => s.value) = gridNonZeroValues g :=
  collectNonZero_values_aux 0 g

theorem collectNonZero_length (g : List (List GameCell)) :
    (collectNonZero g).length = gridCountNZ g := by
  have := congrArg List.length (collectNonZero_values g)
  simpa [gridNonZeroValues_length] using this

/-- When its guard passes, `scrambleBoard` replaces the grid by the
row-major reassignment walk over the permuted pool. -/
theorem scrambleBoard_grid_eq (st : NC) (jChoice : ℕ → ℕ)
    (h1 : st.currentState = GState.playing) (h2 : st.isScrambling = false)
    (h3 : st.scramblesRemaining ≠ 0) :
    (scrambleBoard st jChoice).grid =
      (scrambleRows 0 st.grid
        ((shuffledIndices jChoice (collectNonZero st.grid).length).map
          (fun k => (collectNonZero st.grid).getD k ⟨0, 0, 0⟩))).1 := by
  rw [scrambleBoard, if_neg (by simp [h1, h2, h3])]

theorem assigned_perm_pool (g : List (List GameCell)) (jChoice : ℕ → ℕ) :
    ((shuffledIndices jChoice (collectNonZero g).length).map
      (fun k => (collectNonZero g).getD k ⟨0, 0, 0⟩)).Perm (collectNonZero g) := by
  have h := (shuffledIndices_perm jChoice (collectNonZero g).length).map
    (fun k => (collectNonZero g).getD k ⟨0, 0, 0⟩)
  rwa [getD_range_map] at h

theorem assigned_nonzero (g : List (List GameCell)) (jChoice : ℕ → ℕ) :
    ∀ s ∈ (shuffledIndices jChoice (collectNonZero g).length).map
      (fun k => (collectNonZero g).getD k ⟨0, 0, 0⟩), s.value ≠ 0 := by
  intro s hs
  have hmem : s ∈ collectNonZero g := ((assigned_perm_pool g jChoice).mem_iff).mp hs
  have := List.of_mem_filter hmem
  simpa using this

theorem assigned_length (g : List (List GameCell)) (jChoice : ℕ → ℕ) :
    gridCountNZ g = ((shuffledIndices jChoice (collectNonZero g).length).map
      (fun k => (collectNonZero g).getD k ⟨0, 0, 0⟩)).length := by
  rw [List.length_map, (shuffledIndices_perm jChoice _).length_eq, List.length_range,
    collectNonZero_length]

/-- C3: a scramble from a Playing, non-scrambling state with scrambles
remaining preserves the multiset of non-zero cell values on the board (no
values created or destroyed). -/
theorem c3_scramble_preserves_values (st : NC) (jChoice : ℕ → ℕ)
    (h1 : st.currentState = GState.playing) (h2 : st.isScrambling = false)
    (h3 : st.scramblesRemaining ≠ 0) :
    (gridNonZeroValues (scrambleBoard st jChoice).grid : Multiset ℕ) =
      (gridNonZeroValues st.grid : Multiset ℕ) := by
  rw [scrambleBoard_grid_eq st jChoice h1 h2 h3]
  rw [scrambleRows_nzVals 0 st.grid _ (le_of_eq (assigned_length st.grid jChoice))
    (by rw [assigned_length st.grid jChoice, List.take_length]
        exact assigned_nonzero st.grid jChoice)]
  rw [assigned_length st.grid jChoice, List.take_length]
  refine Multiset.coe_eq_coe.mpr ?_
  have h := (assigned_perm_pool st.grid jChoice).map (fun s => s.value)
  rwa [collectNonZero_values] at h

/-- C4: the scramble follows the specified algorithm: the Fisher–Yates
index list is a permutation of `[0..n)` over the row-major pool of the `n`
non-zero cells; the row-major sequence of non-zero values after the
scramble is exactly `k ↦ pool[permutation[k]]`; zero-valued positions are
untouched. -/
theorem c4_scramble_algorithm (st : NC) (jChoice : ℕ → ℕ)
    (h1 : st.currentState = GState.playing) (h2 : st.isScrambling = false)
    (h3 : st.scramblesRemaining ≠ 0) :
    (shuffledIndices jChoice (collectNonZero st.grid).length).Perm
      (List.range (collectNonZero st.grid).length) ∧
    gridNonZeroValues (scrambleBoard st jChoice).grid =
      (shuffledIndices jChoice (collectNonZero st.grid).length).map
        (fun k => ((collectNonZero st.grid).getD k ⟨0, 0, 0⟩).value) ∧
    (∀ y x, (cellAt st.grid y x).value = 0 →
      cellAt (scrambleBoard st jChoice).grid y x = cellAt st.grid y x) := by
  refine ⟨shuffledIndices_perm _ _, ?_, ?_⟩
  · rw [scrambleBoard_grid_eq st jChoice h1 h2 h3]
    rw [scrambleRows_nzVals 0 st.grid _ (le_of_eq (assigned_length st.grid jChoice))
      (by rw [assigned_length st.grid jChoice, List.take_length]
          exact assigned_nonzero st.grid jChoice)]
    rw [assigned_length st.grid jChoice, List.take_length, List.map_map]
    rfl
  · intro y x h0
    rw [scrambleBoard_grid_eq st jChoice h1 h2 h3]
    exact scrambleRows_zero 0 st.grid _ y x h0

/-! ## Asset loading gate (C9) -/

/-- C9 (counterexample): the `soundEffects` group's loader arms no timeout
at all — `loadSoundEffects` resolves only when its eleven audio loads fire
`canplaythrough` or `error` — so "expiry of the group's fixed 5000 ms
timeout" does not exist for it, and it is not the case that every
registered group has the 5000 ms timeout outcome. -/
theorem c9_counterexample :
    groupTimeoutMs AssetKey.soundEffects = none ∧
    settlesGroup AssetKey.soundEffects LoadOutcome.timeout = false ∧
    ¬ (∀ k : AssetKey, groupTimeoutMs k = some 5000) :=
  ⟨rfl, rfl, fun h => by have := h AssetKey.soundEffects; simp [groupTimeoutMs] at this⟩

/-- C9 (amended): load success and load error mark every registered group
loaded; the six sprite groups each have a 5000 ms timeout that also marks
them loaded, but `soundEffects` and `bgm` have none (they settle only when
each underlying audio load fires); loading progress is
`loadedCount / totalGroups × 100`, 100 when no groups are registered, and
once every group is marked loaded the aggregate progress is exactly 100. -/
theorem c9_amended_asset_gate :
    (∀ (k : AssetKey) (o : LoadOutcome), o ≠ LoadOutcome.timeout → settlesGroup k o = true) ∧
    (∀ k : AssetKey, k ≠ AssetKey.soundEffects → k ≠ AssetKey.bgm →
      groupTimeoutMs k = some 5000) ∧
    groupTimeoutMs AssetKey.soundEffects = none ∧
    groupTimeoutMs AssetKey.bgm = none ∧
    (∀ total loaded : ℕ, 0 < total →
      loadingProgress total loaded = ((loaded : ℚ) / (total : ℚ)) * 100) ∧
    (∀ loaded : ℕ, loadingProgress 0 loaded = 100) ∧
    (∀ loaded : AssetKey → Bool, (∀ k, loaded k = true) → currentProgress loaded = 100) := by
  refine ⟨?_, ?_, rfl, rfl, ?_, ?_, ?_⟩
  · intro k o ho
    cases o with
    | success => rfl
    | failure => rfl
    | timeout => exact absurd rfl ho
  · intro k h1 h2
    cases k <;> first | rfl | exact absurd rfl h1 | exact absurd rfl h2
  · intro total loaded h
    rw [loadingProgress, if_pos h]
  · intro loaded
    rw [loadingProgress, if_neg (by omega)]
  · intro loaded h
    have hcount : loadedCountOf loaded = 8 := by
      simp [loadedCountOf, allAssetKeys, h]
    rw [currentProgress, hcount]
    rw [loadingProgress, if_pos (by simp [allAssetKeys])]
    norm_num [allAssetKeys]

/-! ## Witnesses -/

unseal Rat.mul Rat.add Rat.sub Rat.inv Rat.ofScientific in
theorem c5_enemy_attack_tick_witness :
    samplePlaying.currentState = GState.playing ∧
    samplePlaying.isScrambling = false ∧
    (update samplePlaying 16 0).enemyAttackTimer = 16 ∧
    (update samplePlaying 16 0).playerHealth = 120 :=
  ⟨by decide, by decide,
   by
    have h := (c5_enemy_attack_tick samplePlaying 16 0 (by decide) (by decide)).2.2.1
      (by decide)
    rw [h.1]; decide,
   by
    have h := (c5_enemy_attack_tick samplePlaying 16 0 (by decide) (by decide)).2.2.1
      (by decide)
    rw [h.2]; decide⟩

unseal Rat.mul Rat.add Rat.sub Rat.inv Rat.ofScientific in
theorem c7_scramble_suspends_combat_witness :
    sampleScrambling.currentState = GState.playing ∧
    sampleScrambling.isScrambling = true ∧
    (update sampleScrambling 16 0).enemyAttackTimer = sampleScrambling.enemyAttackTimer ∧
    (update sampleScrambling 16 0).playerHealth = sampleScrambling.playerHealth ∧
    (update sampleScrambling 16 0).isScrambling = true :=
  ⟨by decide, by decide,
   (c7_scramble_suspends_combat sampleScrambling 16 0 (by decide) (by decide)).2.1,
   (c7_scramble_suspends_combat sampleScrambling 16 0 (by decide) (by decide)).2.2.1,
   ((c7_scramble_suspends_combat sampleScrambling 16 0 (by decide)
      (by decide)).2.2.2.2.2.2.2.2.1 (by decide)).1⟩

unseal Rat.mul Rat.add Rat.sub Rat.inv Rat.ofScientific in
theorem c10_simultaneous_death_prefers_win_witness :
    sampleBothDead.currentState = GState.playing ∧
    sampleBothDead.isScrambling = false ∧
    sampleBothDead.playerHealth ≤ 0 ∧
    sampleBothDead.enemyHealth ≤ 0 ∧
    (update sampleBothDead 16 0).currentState = GState.chooseUpgrade ∧
    (update sampleBothDead 16 0).gameOverLeaderboardRequested = true :=
  ⟨by decide, by decide, by decide, by decide,
   (c10_simultaneous_death_prefers_win sampleBothDead 16 0 (by decide) (by decide)
     (by decide) (by decide) (by decide)).1,
   (c10_simultaneous_death_prefers_win sampleBothDead 16 0 (by decide) (by decide)
     (by decide) (by decide) (by decide)).2.1⟩

unseal Rat.mul Rat.add Rat.sub Rat.inv Rat.ofScientific in
theorem c1_amended_win_bonuses_witness :
    sampleEnemyDead.currentState = GState.playing ∧
    sampleEnemyDead.isScrambling = false ∧
    sampleEnemyDead.enemyHealth ≤ 0 ∧
    (update sampleEnemyDead 16 0).currentState = GState.chooseUpgrade ∧
    (update sampleEnemyDead 16 0).lastScrambleBonus = 150 :=
  ⟨by decide, by decide, by decide,
   (c1_amended_win_bonuses sampleEnemyDead 16 0 (by decide) (by decide) (by decide)
     (by decide)).2.1,
   by
    have h := (c1_amended_win_bonuses sampleEnemyDead 16 0 (by decide) (by decide)
      (by decide) (by decide)).2.2.2.1
    rw [h]; decide⟩

unseal Rat.mul Rat.add Rat.sub Rat.inv Rat.ofScientific in
theorem c2_match_resolution_witness :
    sampleSelected.currentState = GState.playing ∧
    sampleSelected.isSelecting = true ∧
    sampleSelected.selectedSum = sampleSelected.targetNumber ∧
    (onMouseUp sampleSelected).score = 100 ∧
    (onMouseUp sampleSelected).enemyHealth = 350 :=
  ⟨by decide, by decide, by decide,
   by
    have h := (c2_match_resolution sampleSelected (by decide) (by decide) (by decide)).2.1
    rw [h]; decide,
   by
    have h := (c2_match_resolution sampleSelected (by decide) (by decide) (by decide)).2.2
    rw [h]; decide⟩

unseal Rat.mul Rat.add Rat.sub Rat.inv Rat.ofScientific in
theorem c8_no_match_clears_selection_only_witness :
    sampleSelectedBad.currentState = GState.playing ∧
    sampleSelectedBad.isSelecting = true ∧
    sampleSelectedBad.selectedSum ≠ sampleSelectedBad.targetNumber ∧
    (onMouseUp sampleSelectedBad).selectedSum = 0 ∧
    (onMouseUp sampleSelectedBad).score = sampleSelectedBad.score ∧
    (onMouseUp sampleSelectedBad).enemyHealth = sampleSelectedBad.enemyHealth :=
  ⟨by decide, by decide, by decide,
   (c8_no_match_clears_selection_only sampleSelectedBad (by decide) (by decide)
     (by decide)).2.2.1,
   (c8_no_match_clears_selection_only sampleSelectedBad (by decide) (by decide)
     (by decide)).2.2.2.2.1,
   (c8_no_match_clears_selection_only sampleSelectedBad (by decide) (by decide)
     (by decide)).2.2.2.2.2.2.1⟩

unseal Rat.mul Rat.add Rat.sub Rat.inv Rat.ofScientific in
theorem c3_scramble_preserves_values_witness :
    samplePlaying.currentState = GState.playing ∧
    samplePlaying.isScrambling = false ∧
    samplePlaying.scramblesRemaining ≠ 0 ∧
    (gridNonZeroValues (scrambleBoard samplePlaying zeroJ).grid : Multiset ℕ) =
      (gridNonZeroValues samplePlaying.grid : Multiset ℕ) :=
  ⟨by decide, by decide, by decide,
   c3_scramble_preserves_values samplePlaying zeroJ (by decide) (by decide) (by decide)⟩

unseal Rat.mul Rat.add Rat.sub Rat.inv Rat.ofScientific in
theorem c4_scramble_algorithm_witness :
    samplePlaying.currentState = GState.playing ∧
    samplePlaying.isScrambling = false ∧
    samplePlaying.scramblesRemaining ≠ 0 ∧
    gridNonZeroValues (scrambleBoard samplePlaying zeroJ).grid =
      (shuffledIndices zeroJ (collectNonZero samplePlaying.grid).length).map
        (fun k => ((collectNonZero samplePlaying.grid).getD k ⟨0, 0, 0⟩).value) :=
  ⟨by decide, by decide, by decide,
   (c4_scramble_algorithm samplePlaying zeroJ (by decide) (by decide) (by decide)).2.1⟩

theorem c9_amended_asset_gate_witness :
    settlesGroup AssetKey.playerSprite LoadOutcome.failure = true ∧
    groupTimeoutMs AssetKey.enemySprite = some 5000 ∧
    loadingProgress 8 4 = 50 ∧
    currentProgress (fun _ => true) = 100 :=
  ⟨c9_amended_asset_gate.1 AssetKey.playerSprite LoadOutcome.failure (by decide),
   c9_amended_asset_gate.2.1 AssetKey.enemySprite (by decide) (by decide),
   by
    rw [c9_amended_asset_gate.2.2.2.2.1 8 4 (by norm_num)]
    norm_num,
   c9_amended_asset_gate.2.2.2.2.2.2 (fun _ => true) (fun _ => rfl)⟩

end NumberCrunch
